import Mathlib

/-!
Verification development for `src/release_manager.py` (InstaSlice operator
release manager).  The Python module is shallowly embedded: YAML documents
become an inductive tree type, the filesystem becomes an association list
from path strings to file contents, external tools (git, skopeo, opm, the
GitHub HTTP API) become oracle values recording what the corresponding
invocation would return, and Python exceptions become an explicit error
type threaded through `Except`.

Modeling conventions, used consistently below:
* A file's on-disk bytes are represented by their YAML parse outcome
  (`FileData.parsed` / `FileData.unparsable`); `yaml.dump(..., sort_keys=False,
  default_flow_style=False)` followed by `yaml.safe_load` round-trips the
  document tree, with key order preserved by the ordered association lists
  inside `Yaml.map`, so writing a document stores `FileData.parsed` of it.
  Files that the workflow writes but never reads back (the rendered
  `catalog.json`) are stored as `FileData.text`.
* Error message strings are transcribed from the Python source, except that
  the single-quote characters Python puts around interpolated names are
  dropped from the transcription.
* YAML documents are modeled as finite trees: anchors/aliases (shared
  sub-objects) are outside the model.  Mapping keys are strings, as in every
  document this tool manipulates.
-/

set_option autoImplicit false

namespace DasRelease

/-- A YAML (equivalently JSON) value as produced by `yaml.safe_load` /
`json.loads`: `None`, booleans, integers, strings, lists and (ordered,
string-keyed) dictionaries. -/
inductive Yaml where
  | null
  | bool (b : Bool)
  | int (n : Int)
  | str (s : String)
  | list (xs : List Yaml)
  | map (kvs : List (String × Yaml))
deriving Repr

/-- Structural equality of YAML values (Python `==` restricted to the
homogeneous comparisons this workflow performs). -/
def Yaml.beq : Yaml → Yaml → Bool
  | .null, .null => true
  | .bool a, .bool b => a == b
  | .int a, .int b => a == b
  | .str a, .str b => a == b
  | .list [], .list [] => true
  | .list (x :: xs), .list (y :: ys) => Yaml.beq x y && Yaml.beq (.list xs) (.list ys)
  | .map [], .map [] => true
  | .map ((k, v) :: xs), .map ((l, w) :: ys) =>
    k == l && Yaml.beq v w && Yaml.beq (.map xs) (.map ys)
  | _, _ => false

/-- Python whitespace for `str.strip()` (the characters relevant here). -/
def pyIsSpace (c : Char) : Bool :=
  c == ' ' || c == '\t' || c == '\n' || c == '\r'

/-- Python `s.strip()`.  Implemented over the character list so that it
evaluates by reduction. -/
def pyStrip (s : String) : String :=
  ⟨((s.data.dropWhile pyIsSpace).reverse.dropWhile pyIsSpace).reverse⟩

/-- Python `s.startswith(pre)`. -/
def pyStartsWith (s pre : String) : Bool :=
  pre.data.isPrefixOf s.data

/-- Substring occurrence over character lists. -/
def charsContains : List Char → List Char → Bool
  | _, [] => true
  | [], _ :: _ => false
  | c :: rest, pat => List.isPrefixOf pat (c :: rest) || charsContains rest pat

/-- Python exceptions that the embedded code can raise. -/
inductive PyExc where
  | releaseError (msg : String)
  | yamlError (msg : String)
  | keyError (key : String)
  | typeError (msg : String)
  | indexError (msg : String)
  | osError (msg : String)
  | timeoutExpired (msg : String)
  | jsonDecodeError (msg : String)
deriving DecidableEq, Repr

/-- `str(e)` for an exception, as interpolated into wrapper messages. -/
def PyExc.message : PyExc → String
  | .releaseError m => m
  | .yamlError m => m
  | .keyError k => k
  | .typeError m => m
  | .indexError m => m
  | .osError m => m
  | .timeoutExpired m => m
  | .jsonDecodeError m => m

/-- Substring test, modeling Python `pat in s` for strings. -/
def strContains (s pat : String) : Bool :=
  charsContains s.data pat.data

/-- Python truthiness of a YAML value (`bool(v)`). -/
def pyFalsy : Yaml → Bool
  | .null => true
  | .bool b => !b
  | .int n => n == 0
  | .str s => s.data.isEmpty
  | .list xs => xs.isEmpty
  | .map kvs => kvs.isEmpty

/-- `isinstance(v, list)`. -/
def Yaml.isList : Yaml → Bool
  | .list _ => true
  | _ => false

/-- First value stored under key `k` in an ordered association list
(Python dictionaries have unique keys, so "first" is "the" entry). -/
def pyFind (kvs : List (String × Yaml)) (k : String) : Option Yaml :=
  match kvs with
  | [] => none
  | (k0, v) :: rest => if k0 == k then some v else pyFind rest k

/-- Python `k in v` for a string `k`: key membership for dicts, element
membership for lists, substring test for strings; a `TypeError` otherwise. -/
def pyContains (k : String) : Yaml → Except PyExc Bool
  | .map kvs => .ok (kvs.any (fun e => e.1 == k))
  | .list xs => .ok (xs.any (fun v => Yaml.beq v (Yaml.str k)))
  | .str s => .ok (strContains s k)
  | .null => .error (.typeError "argument of type NoneType is not iterable")
  | .bool _ => .error (.typeError "argument of type bool is not iterable")
  | .int _ => .error (.typeError "argument of type int is not iterable")

/-- Python `v[k]` for a string key `k`: dictionary lookup raising `KeyError`
when absent; a `TypeError` on every non-dictionary. -/
def pyGetItemStr (k : String) : Yaml → Except PyExc Yaml
  | .map kvs =>
    match pyFind kvs k with
    | some v => .ok v
    | none => .error (.keyError k)
  | .list _ => .error (.typeError "list indices must be integers or slices, not str")
  | .str _ => .error (.typeError "string indices must be integers")
  | .null => .error (.typeError "NoneType object is not subscriptable")
  | .bool _ => .error (.typeError "bool object is not subscriptable")
  | .int _ => .error (.typeError "int object is not subscriptable")

/-- Python `d[k] = v` on a dictionary: replace the value at the (unique,
hence first) occurrence of `k`, or append a new entry. -/
def mapSet (k : String) (v : Yaml) : List (String × Yaml) → List (String × Yaml)
  | [] => [(k, v)]
  | (k0, v0) :: rest =>
    if k0 == k then (k0, v) :: rest else (k0, v0) :: mapSet k v rest

/-- Python `obj[k] = v` for a string key: mutation on dicts, `TypeError`
on every other type. -/
def pySetItemStr (k : String) (v : Yaml) : Yaml → Except PyExc Yaml
  | .map kvs => .ok (.map (mapSet k v kvs))
  | .list _ => .error (.typeError "list indices must be integers or slices, not str")
  | .str _ => .error (.typeError "str object does not support item assignment")
  | .null => .error (.typeError "NoneType object does not support item assignment")
  | .bool _ => .error (.typeError "bool object does not support item assignment")
  | .int _ => .error (.typeError "int object does not support item assignment")

/-- Python `v == s` for a string literal `s`: string equality when `v` is a
string, `False` for every other type (no cross-type coercion involves `str`). -/
def pyEqStr (v : Yaml) (s : String) : Bool :=
  match v with
  | .str t => t == s
  | _ => false

/-- Python `str(v)` as used in f-string interpolation.  Only the string case
is ever reached by the workflow (the GitHub API's `commit.sha` is a string);
the remaining renderings are coarse. -/
def pyStr : Yaml → String
  | .null => "None"
  | .bool b => if b then "True" else "False"
  | .int n => toString n
  | .str s => s
  | .list _ => "<list>"
  | .map _ => "<dict>"

/-- Whether a result is an exception (used to compare the failure behavior
of two operations). -/
def exceptIsError {α : Type} : Except PyExc α → Bool
  | .error _ => true
  | .ok _ => false

/-! ## Filesystem and external-tool oracles -/

/-- Content of a regular file, represented by its YAML parse outcome
(see the module docstring); `text` holds opaque content the workflow
writes but never reads back. -/
inductive FileData where
  | parsed (doc : Yaml)
  | unparsable (msg : String)
  | text (content : String)
deriving Repr

/-- A filesystem entry. -/
inductive Node where
  | dir
  | file (data : FileData)
deriving Repr

/-- The filesystem: an association list from absolute path to entry. -/
abbrev FS := List (String × Node)

def fsLookup (fs : FS) (p : String) : Option Node :=
  match fs with
  | [] => none
  | (q, n) :: rest => if q == p then some n else fsLookup rest p

/-- `Path.exists()`. -/
def pathExists (fs : FS) (p : String) : Bool :=
  (fsLookup fs p).isSome

/-- Create or overwrite the file at `p` (Python `open(p, "w")` + write). -/
def fsWrite (fs : FS) (p : String) (n : Node) : FS :=
  match fs with
  | [] => [(p, n)]
  | (q, m) :: rest => if q == p then (q, n) :: rest else (q, m) :: fsWrite rest p n

/-- Outcome of one `subprocess.run` invocation of an external tool. -/
inductive ToolResult where
  | exited (code : Nat) (stdout : String) (stderr : String)
  | timedOut
deriving Repr

/-- Outcome of the single `urllib.request.urlopen` call against the GitHub
API: a decoded JSON body, a 2xx body that fails `json.loads`, an
`HTTPError` with its status code, or a transport-level `URLError`. -/
inductive HTTPResult where
  | success (data : Yaml)
  | badJson (msg : String)
  | httpError (code : Nat) (reason : String)
  | urlError (reason : String)
deriving Repr

/-! ## DependencyChecker -/

namespace DependencyChecker

/-- Accumulate decimal digits, `int(s)`-style. -/
def charsToNat : List Char → Nat → Nat
  | [], acc => acc
  | c :: cs, acc => charsToNat cs (10 * acc + (c.toNat - '0'.toNat))

/-- Python `int(s)` on the strings compared here: optional surrounding
whitespace, an optional sign, then decimal digits; `none` models the
`ValueError` on anything else.  (Python additionally accepts underscore
digit separators and unicode digits, which never occur in version
strings.) -/
def pyInt? (s : String) : Option Int :=
  let t := (pyStrip s).data
  match t with
  | [] => none
  | '-' :: ds =>
    if ds.isEmpty || !ds.all Char.isDigit then none
    else some (-(Int.ofNat (charsToNat ds 0)))
  | '+' :: ds =>
    if ds.isEmpty || !ds.all Char.isDigit then none
    else some (Int.ofNat (charsToNat ds 0))
  | ds =>
    if ds.all Char.isDigit then some (Int.ofNat (charsToNat ds 0)) else none

/-- Python `s.split('.')` over the character list. -/
def splitOnDot : List Char → List (List Char)
  | [] => [[]]
  | c :: rest =>
    match splitOnDot rest with
    | r :: rs => if c == '.' then [] :: r :: rs else (c :: r) :: rs
    | [] => [[c]]

/-- `tuple(map(int, version.split('.')))`: `none` models the `ValueError`
raised by `int` on a non-numeric component. -/
def parseVersionTuple (s : String) : Option (List Int) :=
  (splitOnDot s.data).mapM (fun cs => pyInt? ⟨cs⟩)

/-- Python `>=` on integer tuples: lexicographic, with a strict prefix
comparing as smaller. -/
def tupleGE : List Int → List Int → Bool
  | _, [] => true
  | [], _ :: _ => false
  | a :: as, b :: bs => if a > b then true else if a < b then false else tupleGE as bs

/-- `DependencyChecker.check_opm_version` (release_manager.py lines 124-137),
taking the result of `get_opm_version` (the version string extracted from
the tool's output, or `None`) as input. -/
def check_opm_version (version : Option String) (min_version : String := "1.47.0") : Bool :=
  match version with
  | none => false
  | some v =>
    match parseVersionTuple v, parseVersionTuple min_version with
    | some current, some required => tupleGE current required
    | _, _ => false

end DependencyChecker

/-! ## GitHubOperations -/

namespace GitHubOperations

/-- The `except KeyError` / `except Exception` clauses of
`get_latest_commit_sha` (lines 207-210): a `KeyError` from the body becomes
the malformed-response error, any other non-`ReleaseError` exception is
wrapped generically; `ReleaseError`s raised by the HTTP-status handlers
propagate unchanged. -/
def githubWrap {α : Type} : Except PyExc α → Except PyExc α
  | .ok a => .ok a
  | .error (.releaseError m) => .error (.releaseError m)
  | .error (.keyError _) => .error (.releaseError "Unexpected response format from GitHub API")
  | .error e => .error (.releaseError ("Failed to get commit SHA from GitHub: " ++ e.message))

/-- `GitHubOperations.get_latest_commit_sha` (lines 172-210) as a function of
the branch-metadata HTTP response.  The `HTTPError`/`URLError` handlers map
status codes to `ReleaseError`s; on success the nested `data['commit']['sha']`
is extracted. -/
def get_latest_commit_sha (repo_owner repo_name branch : String)
    (resp : HTTPResult) : Except PyExc Yaml :=
  githubWrap
    (match resp with
     | .httpError code reason =>
       if code == 404 then
         .error (.releaseError ("Branch " ++ branch ++ " not found in " ++
           repo_owner ++ "/" ++ repo_name))
       else if code == 403 then
         .error (.releaseError "GitHub API rate limit exceeded. Try again later or set GITHUB_TOKEN environment variable.")
       else
         .error (.releaseError ("GitHub API error: " ++ toString code ++ " " ++ reason))
     | .urlError reason =>
       .error (.releaseError ("Network error accessing GitHub API: " ++ reason))
     | .badJson m => .error (.jsonDecodeError m)
     | .success data =>
       match pyGetItemStr "commit" data with
       | .error e => .error e
       | .ok commit => pyGetItemStr "sha" commit)

end GitHubOperations

/-! ## GitOperations and ContainerImageOperations (per-invocation results) -/

namespace GitOperations

/-- `GitOperations.check_repo_clean` (lines 249-262) as a function of the
`git status --porcelain` invocation's outcome.  `check=True` turns a
non-zero exit into a `CalledProcessError`, caught and re-raised as a
`ReleaseError`; a timeout is not caught by this function. -/
def check_repo_clean (res : ToolResult) : Except PyExc Bool :=
  match res with
  | .exited 0 stdout _ => .ok ((pyStrip stdout).data.length == 0)
  | .exited _ _ stderr => .error (.releaseError ("Failed to check git status: " ++ stderr))
  | .timedOut => .error (.timeoutExpired "git status --porcelain")

/-- `GitOperations.commit_changes` (lines 279-302): stage then commit, two
sequential invocations; a failed `add` raises before `commit` runs, and both
failures are wrapped by the shared handler. -/
def commit_changes (addRes commitRes : ToolResult) : Except PyExc Unit :=
  match addRes with
  | .exited 0 _ _ =>
    (match commitRes with
     | .exited 0 _ _ => .ok ()
     | .exited _ _ stderr => .error (.releaseError ("Failed to commit: " ++ stderr))
     | .timedOut => .error (.timeoutExpired "git commit"))
  | .exited _ _ stderr => .error (.releaseError ("Failed to commit: " ++ stderr))
  | .timedOut => .error (.timeoutExpired "git add")

/-- `GitOperations.fetch_latest` decision part (lines 264-277). -/
def fetch_latest (res : ToolResult) : Except PyExc Unit :=
  match res with
  | .exited 0 _ _ => .ok ()
  | .exited _ _ stderr => .error (.releaseError ("Failed to fetch: " ++ stderr))
  | .timedOut => .error (.timeoutExpired "git fetch origin")

/-- `GitOperations.clone_repository` decision part (lines 216-247). -/
def clone_repository (res : ToolResult) : Except PyExc Unit :=
  match res with
  | .exited 0 _ _ => .ok ()
  | .exited _ _ stderr => .error (.releaseError ("Failed to clone repository: " ++ stderr))
  | .timedOut => .error (.releaseError "Repository clone timed out (>5 minutes)")

end GitOperations

namespace ContainerImageOperations

/-- `ContainerImageOperations.get_image_digest` (lines 308-328) as a function
of the `skopeo inspect` invocation's outcome: the trimmed stdout is the
digest, rejected as a fatal format error unless it starts with `sha256:`. -/
def get_image_digest (res : ToolResult) : Except PyExc String :=
  match res with
  | .exited 0 stdout _ =>
    let digest := pyStrip stdout
    if !(pyStartsWith digest "sha256:") then
      .error (.releaseError ("Invalid digest format: " ++ digest))
    else
      .ok digest
  | .exited _ _ stderr => .error (.releaseError ("Failed to inspect image: " ++ stderr))
  | .timedOut => .error (.releaseError "Image inspection timed out")

end ContainerImageOperations

/-! ## FBCCatalogManager -/

/-- The dictionary returned by `preview_catalog_update`. -/
structure ChangeInfo where
  template_path : String
  current_image : Yaml
  new_image : String
  would_change : Bool
deriving Repr

namespace FBCCatalogManager

/-- Body of the `try` block of `preview_catalog_update` (lines 345-383):
existence check, YAML load, navigation to `Stable.Bundles[0].Image`, and the
would-change comparison.  The `not bundles or not isinstance(bundles, list)`
test rejects exactly the values that are not non-empty Python lists, which
the match below mirrors (its last arm is only reached by such values). -/
def preview_catalog_update_body (fs : FS) (template_path new_bundle_image : String) :
    Except PyExc ChangeInfo :=
  match fsLookup fs template_path with
  | none => .error (.releaseError ("Template not found: " ++ template_path))
  | some Node.dir => .error (.osError ("IsADirectoryError: " ++ template_path))
  | some (Node.file (FileData.text c)) => .error (.yamlError ("unmodeled raw file: " ++ c))
  | some (Node.file (FileData.unparsable m)) => .error (.yamlError m)
  | some (Node.file (FileData.parsed data)) =>
    match pyContains "Stable" data with
    | .error e => .error e
    | .ok false => .error (.releaseError "Template missing Stable section")
    | .ok true =>
      match pyGetItemStr "Stable" data with
      | .error e => .error e
      | .ok stable =>
        match pyContains "Bundles" stable with
        | .error e => .error e
        | .ok false => .error (.releaseError "Template missing Stable.Bundles section")
        | .ok true =>
          match pyGetItemStr "Bundles" stable with
          | .error e => .error e
          | .ok bundles =>
            match bundles with
            | .list (b0 :: _) =>
              (match pyContains "Image" b0 with
               | .error e => .error e
               | .ok false => .error (.releaseError "Template missing Image field in first bundle")
               | .ok true =>
                 match pyGetItemStr "Image" b0 with
                 | .error e => .error e
                 | .ok current_image =>
                   .ok { template_path := template_path
                         current_image := current_image
                         new_image := new_bundle_image
                         would_change := !(pyEqStr current_image new_bundle_image) })
            | _ => .error (.releaseError "Template has empty or invalid Bundles list")

/-- The `except` clauses of `preview_catalog_update` (lines 385-390):
`yaml.YAMLError` becomes a parse failure, `ReleaseError` is re-raised, and
every other exception is wrapped as a preview failure. -/
def previewWrap {α : Type} : Except PyExc α → Except PyExc α
  | .ok a => .ok a
  | .error (.yamlError m) => .error (.releaseError ("Failed to parse YAML template: " ++ m))
  | .error (.releaseError m) => .error (.releaseError m)
  | .error e => .error (.releaseError ("Failed to preview template: " ++ e.message))

/-- `FBCCatalogManager.preview_catalog_update` (lines 334-390): read-only,
returns the change report. -/
def preview_catalog_update (fs : FS) (template_path new_bundle_image : String) :
    Except PyExc ChangeInfo :=
  previewWrap (preview_catalog_update_body fs template_path new_bundle_image)

/-- Body of the `try` block of `update_catalog_template` (lines 398-438).
The navigation and validation lines are the same as in the preview body.
The assignment `bundles[0]['Image'] = new_bundle_image` mutates the first
bundle's dictionary in place; since `bundles` is the list object stored
inside `data['Stable']`, the write-back serializes `data` with exactly that
one value replaced, which the reconstruction along the access path below
models.  The assignment and the `yaml.dump` write-back run unconditionally —
the `current_image == new_bundle_image` comparison only selects which
message is logged. -/
def update_catalog_template_body (fs : FS) (template_path new_bundle_image : String) :
    Except PyExc FS :=
  match fsLookup fs template_path with
  | none => .error (.releaseError ("Template not found: " ++ template_path))
  | some Node.dir => .error (.osError ("IsADirectoryError: " ++ template_path))
  | some (Node.file (FileData.text c)) => .error (.yamlError ("unmodeled raw file: " ++ c))
  | some (Node.file (FileData.unparsable m)) => .error (.yamlError m)
  | some (Node.file (FileData.parsed data)) =>
    match pyContains "Stable" data with
    | .error e => .error e
    | .ok false => .error (.releaseError "Template missing Stable section")
    | .ok true =>
      match pyGetItemStr "Stable" data with
      | .error e => .error e
      | .ok stable =>
        match pyContains "Bundles" stable with
        | .error e => .error e
        | .ok false => .error (.releaseError "Template missing Stable.Bundles section")
        | .ok true =>
          match pyGetItemStr "Bundles" stable with
          | .error e => .error e
          | .ok bundles =>
            match bundles with
            | .list (b0 :: rest) =>
              (match pyContains "Image" b0 with
               | .error e => .error e
               | .ok false => .error (.releaseError "Template missing Image field in first bundle")
               | .ok true =>
                 match pyGetItemStr "Image" b0 with
                 | .error e => .error e
                 | .ok _current_image =>
                   match pySetItemStr "Image" (.str new_bundle_image) b0 with
                   | .error e => .error e
                   | .ok b0' =>
                     match pySetItemStr "Bundles" (.list (b0' :: rest)) stable with
                     | .error e => .error e
                     | .ok stable' =>
                       match pySetItemStr "Stable" stable' data with
                       | .error e => .error e
                       | .ok data' =>
                         .ok (fsWrite fs template_path (.file (.parsed data'))))
            | _ => .error (.releaseError "Template has empty or invalid Bundles list")

/-- The `except` clauses of `update_catalog_template` (lines 440-445). -/
def updateWrap {α : Type} : Except PyExc α → Except PyExc α
  | .ok a => .ok a
  | .error (.yamlError m) => .error (.releaseError ("Failed to parse YAML template: " ++ m))
  | .error (.releaseError m) => .error (.releaseError m)
  | .error e => .error (.releaseError ("Failed to update template: " ++ e.message))

/-- `FBCCatalogManager.update_catalog_template` (lines 392-445): returns the
filesystem after the write-back. -/
def update_catalog_template (fs : FS) (template_path new_bundle_image : String) :
    Except PyExc FS :=
  updateWrap (update_catalog_template_body fs template_path new_bundle_image)

/-- `FBCCatalogManager.regenerate_catalog` decision part (lines 447-483):
returns the rendered catalog text (the tool's stdout) to be written to the
derived output path. -/
def regenerate_catalog (res : ToolResult) : Except PyExc String :=
  match res with
  | .exited 0 stdout _ => .ok stdout
  | .exited _ _ stderr => .error (.releaseError ("Failed to regenerate catalog: " ++ stderr))
  | .timedOut => .error (.releaseError "Catalog generation timed out")

end FBCCatalogManager

/-! ## ReleaseManager: world state and orchestration

`run_release` is embedded in explicit state-passing style: a `World` carries
the filesystem, an abstract counter for version-control metadata (the
contents of `.git`, which `git clone`, `git fetch` and `git add`/`commit`
modify), and one oracle per external invocation recording what that
invocation would return during this run.  Each step maps a `World` to a
result and a successor `World`. -/

structure ReleaseConfig where
  fbc_repo_path : String
  operator_branch : String := "next"
  fbc_branch : String := "main"
  tenant : String := "dynamicacceleratorsl-tenant"
  bundle_component : String := "instaslice-operator-bundle-next"
  quay_registry : String := "quay.io/redhat-user-workloads"
  ocp_version : String := "v4.19"
  operator_repo_owner : String := "openshift"
  operator_repo_name : String := "instaslice-operator"
  fbc_repo_url : String := "https://github.com/openshift/instaslice-fbc.git"
deriving Repr

structure World where
  fs : FS
  /-- Abstract version counter for the repository's version-control metadata. -/
  gitMeta : Nat
  /-- Entries a successful `git clone` would create under the destination. -/
  cloneFiles : FS
  cloneResult : ToolResult
  fetchResult : ToolResult
  statusResult : ToolResult
  addResult : ToolResult
  commitResult : ToolResult
  githubResult : HTTPResult
  skopeoResult : ToolResult
  opmRenderResult : ToolResult
deriving Repr

/-- `GitOperations.clone_repository` with its filesystem effect: on success
the clone's working tree and metadata appear on disk. -/
def GitOperations.clone_repository_run (w : World) : Except PyExc Unit × World :=
  match GitOperations.clone_repository w.cloneResult with
  | .ok _ => (.ok (), { w with fs := w.fs ++ w.cloneFiles, gitMeta := w.gitMeta + 1 })
  | .error e => (.error e, w)

/-- `GitOperations.fetch_latest` with its filesystem effect: a successful
`git fetch origin` updates metadata under `.git` (at least `FETCH_HEAD`). -/
def GitOperations.fetch_latest_run (w : World) : Except PyExc Unit × World :=
  match GitOperations.fetch_latest w.fetchResult with
  | .ok _ => (.ok (), { w with gitMeta := w.gitMeta + 1 })
  | .error e => (.error e, w)

/-- The dictionary returned by `ReleaseManager.update_fbc_catalog`. -/
inductive UpdateInfo where
  | previewed (info : ChangeInfo)
  | applied (template_path new_image : String)
deriving Repr

namespace ReleaseManager

/-- `ReleaseManager.validate_and_setup_repositories` (lines 492-507):
clone-if-absent, and a fatal error when the path exists without `.git`. -/
def validate_and_setup_repositories (cfg : ReleaseConfig) (w : World) :
    Except PyExc Unit × World :=
  if pathExists w.fs cfg.fbc_repo_path = false then
    GitOperations.clone_repository_run w
  else if pathExists w.fs (cfg.fbc_repo_path ++ "/.git") = false then
    (.error (.releaseError ("Not a git repository: " ++ cfg.fbc_repo_path)), w)
  else
    (.ok (), w)

/-- `ReleaseManager.check_fbc_repo_clean` (lines 509-517). -/
def check_fbc_repo_clean (cfg : ReleaseConfig) (w : World) :
    Except PyExc Unit × World :=
  match GitOperations.check_repo_clean w.statusResult with
  | .error e => (.error e, w)
  | .ok true => (.ok (), w)
  | .ok false =>
    (.error (.releaseError ("FBC repository has uncommitted changes: " ++
      cfg.fbc_repo_path ++ "\nPlease commit or stash changes before running release.")), w)

/-- `ReleaseManager.get_latest_bundle_sha` (lines 519-545): resolve the tip
commit via the GitHub API, build the tag-addressed bundle reference, and
resolve its digest via skopeo. -/
def get_latest_bundle_sha (cfg : ReleaseConfig) (w : World) :
    Except PyExc (String × String) × World :=
  match GitHubOperations.get_latest_commit_sha cfg.operator_repo_owner
      cfg.operator_repo_name cfg.operator_branch w.githubResult with
  | .error e => (.error e, w)
  | .ok sha =>
    let commit_sha := pyStr sha
    let _bundle_image := cfg.quay_registry ++ "/" ++ cfg.tenant ++ "/" ++
      cfg.bundle_component ++ ":" ++ commit_sha
    match ContainerImageOperations.get_image_digest w.skopeoResult with
    | .error e => (.error e, w)
    | .ok image_digest => (.ok (commit_sha, image_digest), w)

/-- `ReleaseManager.update_fbc_catalog` (lines 547-597): fetch, then either
preview (dry run, no filesystem effect) or apply the template update and
regenerate the catalog. -/
def update_fbc_catalog (cfg : ReleaseConfig) (_commit_sha image_digest : String)
    (dry_run : Bool) (w : World) : Except PyExc UpdateInfo × World :=
  match GitOperations.fetch_latest_run w with
  | (.error e, w1) => (.error e, w1)
  | (.ok _, w1) =>
    let bundle_image := cfg.quay_registry ++ "/" ++ cfg.tenant ++ "/" ++
      cfg.bundle_component ++ "@" ++ image_digest
    let template_path := cfg.fbc_repo_path ++ "/" ++ cfg.ocp_version ++
      "/catalog-template.yaml"
    if dry_run then
      match FBCCatalogManager.preview_catalog_update w1.fs template_path bundle_image with
      | .error e => (.error e, w1)
      | .ok info => (.ok (UpdateInfo.previewed info), w1)
    else
      match FBCCatalogManager.update_catalog_template w1.fs template_path bundle_image with
      | .error e => (.error e, w1)
      | .ok fs' =>
        let w2 := { w1 with fs := fs' }
        match FBCCatalogManager.regenerate_catalog w2.opmRenderResult with
        | .error e => (.error e, w2)
        | .ok rendered =>
          let output_path := cfg.fbc_repo_path ++ "/" ++ cfg.ocp_version ++
            "/catalog/instaslice-operator/catalog.json"
          (.ok (UpdateInfo.applied template_path bundle_image),
            { w2 with fs := fsWrite w2.fs output_path (.file (.text rendered)) })

/-- `ReleaseManager.commit_fbc_changes` (lines 599-620): stage and commit the
template and rendered catalog; success updates version-control metadata. -/
def commit_fbc_changes (_cfg : ReleaseConfig) (_commit_sha : String) (w : World) :
    Except PyExc Unit × World :=
  match GitOperations.commit_changes w.addResult w.commitResult with
  | .error e => (.error e, w)
  | .ok _ => (.ok (), { w with gitMeta := w.gitMeta + 1 })

/-- Sequencing of one workflow step after another: an exception aborts the
run, a normal result feeds the successor state into the next step (the
exception-monad bind, written out). -/
def bindStep {α β : Type} (r : Except PyExc α × World)
    (f : α → World → Except PyExc β × World) : Except PyExc β × World :=
  match r with
  | (.error e, w) => (.error e, w)
  | (.ok a, w) => f a w

/-- Body of the `try` block of `run_release` (lines 633-697): the strictly
sequential workflow.  The clean-repository check runs only in apply mode;
in dry-run mode the final step only prints the preview to the console.
`shas` is the `(commit_sha, image_digest)` pair. -/
def run_release_body (cfg : ReleaseConfig) (dry_run : Bool) (w : World) :
    Except PyExc Unit × World :=
  bindStep (validate_and_setup_repositories cfg w) (fun _ w1 =>
    bindStep (if dry_run then (.ok (), w1) else check_fbc_repo_clean cfg w1) (fun _ w2 =>
      bindStep (get_latest_bundle_sha cfg w2) (fun shas w3 =>
        bindStep (update_fbc_catalog cfg shas.1 shas.2 dry_run w3) (fun _change_info w4 =>
          if dry_run then (.ok (), w4)
          else commit_fbc_changes cfg shas.1 w4))))

/-- `ReleaseManager.run_release` (lines 622-704): the body's exceptions are
caught and turned into exit code 1; a completed run exits 0. -/
def run_release (cfg : ReleaseConfig) (dry_run : Bool) (w : World) : Nat × World :=
  match run_release_body cfg dry_run w with
  | (.ok _, w') => (0, w')
  | (.error _, w') => (1, w')

end ReleaseManager

/-- The default configuration with the repository at `/fbc`. -/
def cloneConfig : ReleaseConfig := { fbc_repo_path := "/fbc" }

/-- A world in which the local catalog repository does not exist and the
clone succeeds; the GitHub lookup then fails, ending the run. -/
def absentRepoWorld : World :=
  { fs := []
    gitMeta := 0
    cloneFiles := [("/fbc", .dir), ("/fbc/.git", .dir)]
    cloneResult := .exited 0 "" ""
    fetchResult := .exited 0 "" ""
    statusResult := .exited 0 "" ""
    addResult := .exited 0 "" ""
    commitResult := .exited 0 "" ""
    githubResult := .httpError 404 "Not Found"
    skopeoResult := .exited 0 "sha256:bb" ""
    opmRenderResult := .exited 0 "" "" }

/-- A world in which the local catalog repository is present with a valid
template, and every external call succeeds. -/
def presentRepoWorld : World :=
  { fs := [("/fbc", .dir), ("/fbc/.git", .dir),
      ("/fbc/v4.19/catalog-template.yaml", .file (.parsed (.map [("Stable",
        .map [("Bundles", .list [.map [("Image", .str "quay.io/x@sha256:old")]])])])))]
    gitMeta := 0
    cloneFiles := []
    cloneResult := .exited 0 "" ""
    fetchResult := .exited 0 "" ""
    statusResult := .exited 0 "" ""
    addResult := .exited 0 "" ""
    commitResult := .exited 0 "" ""
    githubResult := .success (.map [("commit", .map [("sha",
      .str "0123456789012345678901234567890123456789")])])
    skopeoResult := .exited 0 "sha256:bb" ""
    opmRenderResult := .exited 0 "" "" }

/-! ## Specification-side definitions

These transcribe the specification's wording (not the code) and are used to
compare code behavior against the spec in refinement-style claims. -/

/-- Hexadecimal digit. -/
def isHexDigitChar (c : Char) : Bool :=
  c.isDigit || ('a' ≤ c && c ≤ 'f') || ('A' ≤ c && c ≤ 'F')

/-- Spec §3.3/§8: a digest of the form `sha256:` followed by 64 hexadecimal
characters. -/
def isSha256Hex64 (s : String) : Bool :=
  pyStartsWith s "sha256:" &&
    ((s.data.drop 7).length == 64 && (s.data.drop 7).all isHexDigitChar)

/-- Spec §4.1 reading of "component-wise numeric tuple comparison": tuples of
equal shape with every component of the first at least the corresponding
component of the second. -/
def componentwiseGE (xs ys : List Int) : Bool :=
  xs.length == ys.length && (xs.zip ys).all (fun p => p.2 ≤ p.1)

/-! ## Helper lemmas -/

theorem strData_append (s t : String) : (s ++ t).data = s.data ++ t.data := rfl

theorem str_ne_of_char (s t : String) (i : Nat) (a b : Char)
    (hs : s.data.get? i = some a) (ht : t.data.get? i = some b) (hab : a ≠ b) :
    s ≠ t := by
  intro he
  rw [he, ht] at hs
  exact hab (Option.some.inj hs).symm

theorem str_eq_empty_iff (s : String) : s = "" ↔ s.data = [] := by
  cases s with
  | mk l => simp [String.ext_iff]

/-- Python `>=` on tuples is the complement of the lexicographic strict
order (with a strict prefix smaller). -/
theorem tupleGE_iff_not_lex : ∀ (a b : List Int),
    DependencyChecker.tupleGE a b = true ↔ ¬ List.Lex (· < ·) a b := by
  intro a
  induction a with
  | nil =>
    intro b
    cases b with
    | nil => simp [DependencyChecker.tupleGE]
    | cons y ys =>
      simp only [DependencyChecker.tupleGE]
      constructor
      · intro h; exact absurd h (by simp)
      · intro h; exact absurd (List.Lex.nil) h
  | cons x xs ih =>
    intro b
    cases b with
    | nil =>
      simp only [DependencyChecker.tupleGE]
      constructor
      · intro _ h; cases h
      · intro _; trivial
    | cons y ys =>
      simp only [DependencyChecker.tupleGE]
      by_cases hgt : x > y
      · simp only [hgt, if_pos rfl, if_true]
        constructor
        · intro _ h
          cases h with
          | cons h' => omega
          | rel h' => omega
        · intro _; trivial
      · rw [if_neg hgt]
        by_cases hlt : x < y
        · rw [if_pos hlt]
          constructor
          · intro h; exact absurd h (by simp)
          · intro h; exact absurd (List.Lex.rel hlt) h
        · rw [if_neg hlt]
          have hxy : x = y := by omega
          subst hxy
          rw [ih ys]
          constructor
          · intro h hl
            cases hl with
            | cons h' => exact h h'
            | rel h' => omega
          · intro h hl; exact h (List.Lex.cons hl)

theorem any_not_space_dropWhile (l : List Char)
    (h : l.any (fun c => !pyIsSpace c) = true) :
    (l.dropWhile pyIsSpace).any (fun c => !pyIsSpace c) = true := by
  induction l with
  | nil => simp at h
  | cons c rest ih =>
    by_cases hc : pyIsSpace c = true
    · rw [List.dropWhile_cons_of_pos hc]
      apply ih
      simp [hc] at h
      simpa using h
    · rw [List.dropWhile_cons_of_neg hc]
      simp [hc]

theorem pyStrip_ne_empty_of_any (s : String)
    (h : s.data.any (fun c => !pyIsSpace c) = true) :
    (pyStrip s).data ≠ [] := by
  have h1 := any_not_space_dropWhile s.data h
  have h2 : (s.data.dropWhile pyIsSpace).reverse.any (fun c => !pyIsSpace c) = true := by
    simpa using h1
  have h3 := any_not_space_dropWhile _ h2
  have h4 : (((s.data.dropWhile pyIsSpace).reverse.dropWhile pyIsSpace).reverse).any
      (fun c => !pyIsSpace c) = true := by
    simpa using h3
  intro hempty
  rw [show (pyStrip s).data =
    ((s.data.dropWhile pyIsSpace).reverse.dropWhile pyIsSpace).reverse from rfl] at hempty
  rw [hempty] at h4
  simp at h4

theorem anyKey_decomp (k : String) (v : Yaml) (pre post : List (String × Yaml)) :
    ((pre ++ (k, v) :: post).any (fun e => e.1 == k)) = true := by
  simp

theorem anyKey_absent (k : String) (kvs : List (String × Yaml))
    (h : ∀ e ∈ kvs, e.1 ≠ k) : (kvs.any (fun e => e.1 == k)) = false := by
  rw [List.any_eq_false]
  intro e he
  simpa using h e he

theorem pyFind_decomp (k : String) (v : Yaml) (post : List (String × Yaml)) :
    ∀ pre : List (String × Yaml), (∀ e ∈ pre, e.1 ≠ k) →
      pyFind (pre ++ (k, v) :: post) k = some v := by
  intro pre
  induction pre with
  | nil => intro _; simp [pyFind]
  | cons e rest ih =>
    intro h
    have he : (e.1 == k) = false := by simpa using h e (List.mem_cons_self e rest)
    obtain ⟨k0, v0⟩ := e
    simp only [List.cons_append, pyFind]
    rw [he]
    exact ih (fun x hx => h x (List.mem_cons_of_mem _ hx))

theorem mapSet_decomp (k : String) (v w : Yaml) (post : List (String × Yaml)) :
    ∀ pre : List (String × Yaml), (∀ e ∈ pre, e.1 ≠ k) →
      mapSet k v (pre ++ (k, w) :: post) = pre ++ (k, v) :: post := by
  intro pre
  induction pre with
  | nil => intro _; simp [mapSet]
  | cons e rest ih =>
    intro h
    have he : (e.1 == k) = false := by simpa using h e (List.mem_cons_self e rest)
    obtain ⟨k0, v0⟩ := e
    simp only [List.cons_append, mapSet]
    rw [he]
    simp [ih (fun x hx => h x (List.mem_cons_of_mem _ hx))]

theorem mapSet_self (k : String) : ∀ (kvs : List (String × Yaml)) (v : Yaml),
    pyFind kvs k = some v → mapSet k v kvs = kvs := by
  intro kvs
  induction kvs with
  | nil => intro v h; simp [pyFind] at h
  | cons e rest ih =>
    intro v h
    obtain ⟨k0, v0⟩ := e
    by_cases hk : (k0 == k) = true
    · simp only [pyFind, hk, if_true, Option.some.injEq] at h
      simp [mapSet, hk, h]
    · rw [Bool.not_eq_true] at hk
      simp only [pyFind, hk] at h
      simp only [mapSet, hk]
      simp [ih v (by simpa using h)]

theorem mapSet_fix (k : String) : ∀ (kvs : List (String × Yaml)) (v w : Yaml),
    pyFind kvs k = some w → mapSet k v kvs = kvs → v = w := by
  intro kvs
  induction kvs with
  | nil => intro v w h _; simp [pyFind] at h
  | cons e rest ih =>
    intro v w h hset
    obtain ⟨k0, v0⟩ := e
    by_cases hk : (k0 == k) = true
    · simp only [pyFind, hk, if_true, Option.some.injEq] at h
      simp only [mapSet, hk, if_true, List.cons.injEq, Prod.mk.injEq] at hset
      exact hset.1.2.trans h
    · rw [Bool.not_eq_true] at hk
      simp only [pyFind, hk] at h
      simp only [mapSet, hk, Bool.false_eq_true, if_false, List.cons.injEq] at hset
      exact ih v w (by simpa using h) hset.2

theorem fsWrite_self : ∀ (fs : FS) (p : String) (n : Node),
    fsLookup fs p = some n → fsWrite fs p n = fs := by
  intro fs
  induction fs with
  | nil => intro p n h; simp [fsLookup] at h
  | cons e rest ih =>
    intro p n h
    obtain ⟨q, m⟩ := e
    by_cases hq : (q == p) = true
    · simp only [fsLookup, hq, if_true, Option.some.injEq] at h
      simp [fsWrite, hq, h]
    · rw [Bool.not_eq_true] at hq
      simp only [fsLookup, hq] at h
      simp only [fsWrite, hq, Bool.false_eq_true, if_false, List.cons.injEq]
      refine ⟨by trivial, ?_⟩
      exact ih p n (by simpa using h)

theorem fsLookup_write : ∀ (fs : FS) (p : String) (n : Node),
    fsLookup (fsWrite fs p n) p = some n := by
  intro fs
  induction fs with
  | nil => intro p n; simp [fsWrite, fsLookup]
  | cons e rest ih =>
    intro p n
    obtain ⟨q, m⟩ := e
    by_cases hq : (q == p) = true
    · simp [fsWrite, hq, fsLookup]
    · rw [Bool.not_eq_true] at hq
      simp only [fsWrite, hq, Bool.false_eq_true, if_false, fsLookup]
      exact ih p n

theorem any_of_pyFind (k : String) : ∀ (kvs : List (String × Yaml)) (v : Yaml),
    pyFind kvs k = some v → (kvs.any (fun e => e.1 == k)) = true := by
  intro kvs
  induction kvs with
  | nil => intro v h; simp [pyFind] at h
  | cons e rest ih =>
    intro v h
    obtain ⟨k0, v0⟩ := e
    by_cases hk : (k0 == k) = true
    · simp [hk]
    · rw [Bool.not_eq_true] at hk
      simp only [pyFind, hk] at h
      simp only [List.any_cons, hk, Bool.false_or]
      exact ih v (by simpa using h)

/-- On a valid template, `preview_catalog_update` returns the change report
built from the stored image. -/
theorem preview_nav (fs : FS) (path img : String) (kvs skvs bkvs : List (String × Yaml))
    (brest : List Yaml) (oldImg : Yaml)
    (hfile : fsLookup fs path = some (.file (.parsed (.map kvs))))
    (hstable : pyFind kvs "Stable" = some (.map skvs))
    (hbundles : pyFind skvs "Bundles" = some (.list (.map bkvs :: brest)))
    (himg : pyFind bkvs "Image" = some oldImg) :
    FBCCatalogManager.preview_catalog_update fs path img =
      .ok { template_path := path, current_image := oldImg, new_image := img,
            would_change := !(pyEqStr oldImg img) } := by
  simp only [FBCCatalogManager.preview_catalog_update,
    FBCCatalogManager.preview_catalog_update_body, hfile, pyContains, pyGetItemStr,
    any_of_pyFind _ _ _ hstable, hstable, any_of_pyFind _ _ _ hbundles, hbundles,
    any_of_pyFind _ _ _ himg, himg, FBCCatalogManager.previewWrap]

/-- On a valid template, `update_catalog_template` writes back the document
with `Stable.Bundles[0].Image` replaced along the access path. -/
theorem update_nav (fs : FS) (path img : String) (kvs skvs bkvs : List (String × Yaml))
    (brest : List Yaml) (oldImg : Yaml)
    (hfile : fsLookup fs path = some (.file (.parsed (.map kvs))))
    (hstable : pyFind kvs "Stable" = some (.map skvs))
    (hbundles : pyFind skvs "Bundles" = some (.list (.map bkvs :: brest)))
    (himg : pyFind bkvs "Image" = some oldImg) :
    FBCCatalogManager.update_catalog_template fs path img =
      .ok (fsWrite fs path (.file (.parsed (.map (mapSet "Stable"
        (.map (mapSet "Bundles"
          (.list (.map (mapSet "Image" (.str img) bkvs) :: brest)) skvs)) kvs))))) := by
  simp only [FBCCatalogManager.update_catalog_template,
    FBCCatalogManager.update_catalog_template_body, hfile, pyContains, pyGetItemStr,
    pySetItemStr, any_of_pyFind _ _ _ hstable, hstable, any_of_pyFind _ _ _ hbundles,
    hbundles, any_of_pyFind _ _ _ himg, himg, FBCCatalogManager.updateWrap]

/-! ## Claim theorems -/

/-- Claim C8: `check_repo_clean` reports clean exactly for empty
`git status --porcelain` output — an empty stdout yields `true`, any output
containing a non-whitespace character (as every porcelain status line does)
yields `false`, and in general the result is `true` iff the stripped stdout
is empty — while a failing tool invocation (non-zero exit, e.g. the path not
being a repository) raises a fatal `ReleaseError` instead of being treated
as dirty. -/
theorem claim_C8_check_repo_clean (out err : String) (code : Nat) :
    (out = "" → GitOperations.check_repo_clean (.exited 0 out err) = .ok true) ∧
    (out.data.any (fun c => !pyIsSpace c) = true →
      GitOperations.check_repo_clean (.exited 0 out err) = .ok false) ∧
    (GitOperations.check_repo_clean (.exited 0 out err) = .ok true ↔ pyStrip out = "") ∧
    (code ≠ 0 →
      GitOperations.check_repo_clean (.exited code out err) =
        .error (.releaseError ("Failed to check git status: " ++ err))) := by
  refine ⟨?_, ?_, ?_, ?_⟩
  · intro h; subst h; rfl
  · intro h
    have hne := pyStrip_ne_empty_of_any out h
    simp only [GitOperations.check_repo_clean, Except.ok.injEq]
    have : (pyStrip out).data.length ≠ 0 := by
      intro h0; exact hne (List.length_eq_zero.mp h0)
    simpa using this
  · constructor
    · intro h
      simp only [GitOperations.check_repo_clean, Except.ok.injEq] at h
      exact (str_eq_empty_iff _).mpr (List.length_eq_zero.mp (beq_iff_eq.mp h))
    · intro h
      have hdata : (pyStrip out).data = [] := (str_eq_empty_iff _).mp h
      simp only [GitOperations.check_repo_clean, Except.ok.injEq]
      rw [hdata]
      rfl
  · intro hc
    cases code with
    | zero => exact absurd rfl hc
    | succ n => rfl

/-- Witness for C8 at concrete inputs: empty porcelain output is clean, a
modified-file line is dirty, and a `git` failure surfaces as a
`ReleaseError`. -/
theorem claim_C8_witness :
    GitOperations.check_repo_clean (.exited 0 "" "") = .ok true ∧
    GitOperations.check_repo_clean (.exited 0 " M catalog-template.yaml\n" "") = .ok false ∧
    GitOperations.check_repo_clean (.exited 128 "" "fatal: not a git repository") =
      .error (.releaseError ("Failed to check git status: " ++ "fatal: not a git repository")) :=
  ⟨(claim_C8_check_repo_clean "" "" 128).1 rfl,
   (claim_C8_check_repo_clean " M catalog-template.yaml\n" "" 128).2.1 (by decide),
   (claim_C8_check_repo_clean "" "fatal: not a git repository" 128).2.2.2 (by decide)⟩

/-- Claim C3, counterexample: the code accepts any digest that merely starts
with `sha256:`; skopeo output `"sha256:zz\n"` is returned as the digest
`"sha256:zz"` even though it is not `sha256:` followed by 64 hex characters,
so "only strings of the 64-hex form are returned" is false. -/
theorem claim_C3_counterexample :
    ContainerImageOperations.get_image_digest (.exited 0 "sha256:zz\n" "") =
      .ok "sha256:zz" ∧
    isSha256Hex64 "sha256:zz" = false :=
  ⟨rfl, rfl⟩

/-- Claim C3 as amended: `get_image_digest` validates only the `sha256:`
prefix of the trimmed tool output — a string with that prefix is returned
as-is, any string without it is rejected with the fatal
`Invalid digest format` release error before any image reference is built,
and a failing inspection is a release error. -/
theorem claim_C3_digest_prefix_validation (stdout stderr : String) (code : Nat) :
    (pyStartsWith (pyStrip stdout) "sha256:" = true →
      ContainerImageOperations.get_image_digest (.exited 0 stdout stderr) =
        .ok (pyStrip stdout)) ∧
    (pyStartsWith (pyStrip stdout) "sha256:" = false →
      ContainerImageOperations.get_image_digest (.exited 0 stdout stderr) =
        .error (.releaseError ("Invalid digest format: " ++ pyStrip stdout))) ∧
    (code ≠ 0 →
      ContainerImageOperations.get_image_digest (.exited code stdout stderr) =
        .error (.releaseError ("Failed to inspect image: " ++ stderr))) := by
  refine ⟨?_, ?_, ?_⟩
  · intro h
    simp [ContainerImageOperations.get_image_digest, h]
  · intro h
    simp [ContainerImageOperations.get_image_digest, h]
  · intro hc
    cases code with
    | zero => exact absurd rfl hc
    | succ n => rfl

/-- Witness for C3's amended theorem at concrete inputs. -/
theorem claim_C3_witness :
    ContainerImageOperations.get_image_digest
        (.exited 0 "sha256:0123456789abcdef\n" "") = .ok "sha256:0123456789abcdef" ∧
    ContainerImageOperations.get_image_digest (.exited 0 "oops" "") =
      .error (.releaseError ("Invalid digest format: " ++ "oops")) ∧
    ContainerImageOperations.get_image_digest (.exited 1 "" "manifest unknown") =
      .error (.releaseError ("Failed to inspect image: " ++ "manifest unknown")) :=
  ⟨(claim_C3_digest_prefix_validation "sha256:0123456789abcdef\n" "" 1).1 (by decide),
   (claim_C3_digest_prefix_validation "oops" "" 1).2.1 (by decide),
   (claim_C3_digest_prefix_validation "" "manifest unknown" 1).2.2 (by decide)⟩

/-- Claim C9, counterexample: version compliance is not the component-wise
tuple order the claim states.  Version `2.0.0` against required `1.47.0`
passes the code's check although `(2,0,0)` is not component-wise `≥`
`(1,47,0)` (its patch component `0 < 47` in the middle position — the
comparison the code performs is lexicographic). -/
theorem claim_C9_counterexample :
    DependencyChecker.check_opm_version (some "2.0.0") "1.47.0" = true ∧
    DependencyChecker.parseVersionTuple "2.0.0" = some [2, 0, 0] ∧
    DependencyChecker.parseVersionTuple "1.47.0" = some [1, 47, 0] ∧
    componentwiseGE [2, 0, 0] [1, 47, 0] = false :=
  ⟨rfl, rfl, rfl, rfl⟩

/-- Claim C9 as amended: `check_opm_version` returns `true` iff the reported
version string parses to a numeric tuple that is lexicographically at least
the required tuple (Python tuple ordering, a strict prefix comparing
smaller); a missing or unparseable version yields `false` and never an
error. -/
theorem claim_C9_opm_version_lexicographic (v min_version : String) :
    (DependencyChecker.check_opm_version none min_version = false) ∧
    (DependencyChecker.parseVersionTuple v = none →
      DependencyChecker.check_opm_version (some v) min_version = false) ∧
    (∀ cur req, DependencyChecker.parseVersionTuple v = some cur →
      DependencyChecker.parseVersionTuple min_version = some req →
      (DependencyChecker.check_opm_version (some v) min_version = true ↔
        ¬ List.Lex (· < ·) cur req)) := by
  refine ⟨rfl, ?_, ?_⟩
  · intro h
    simp [DependencyChecker.check_opm_version, h]
  · intro cur req hc hr
    simp only [DependencyChecker.check_opm_version, hc, hr]
    exact tupleGE_iff_not_lex cur req

/-- Witness for C9's amended theorem: `1.50.5` satisfies `1.47.0`
lexicographically, and an unparseable version fails the check. -/
theorem claim_C9_witness :
    DependencyChecker.check_opm_version (some "1.50.5") "1.47.0" = true ∧
    DependencyChecker.check_opm_version (some "garbage") "1.47.0" = false :=
  ⟨((claim_C9_opm_version_lexicographic "1.50.5" "1.47.0").2.2 [1, 50, 5] [1, 47, 0]
      rfl rfl).mpr (by decide),
   (claim_C9_opm_version_lexicographic "garbage" "1.47.0").2.1 rfl⟩

/-- Claim C7: `get_latest_commit_sha` maps each failure mode of the branch
lookup to its own release error — HTTP 404 to "branch not found", 403 to the
rate-limit error, any other error status to the generic API error carrying
the status code, a transport failure to the network error, and a missing
`commit`/`sha` field in the JSON to the malformed-response error — the five
messages being pairwise distinct; on success it returns the nested
`commit.sha` value. -/
theorem claim_C7_github_error_taxonomy (repo_owner repo_name branch reason : String)
    (code : Nat) :
    (GitHubOperations.get_latest_commit_sha repo_owner repo_name branch
        (.httpError 404 reason) =
      .error (.releaseError ("Branch " ++ branch ++ " not found in " ++
        repo_owner ++ "/" ++ repo_name))) ∧
    (GitHubOperations.get_latest_commit_sha repo_owner repo_name branch
        (.httpError 403 reason) =
      .error (.releaseError "GitHub API rate limit exceeded. Try again later or set GITHUB_TOKEN environment variable.")) ∧
    (code ≠ 404 → code ≠ 403 →
      GitHubOperations.get_latest_commit_sha repo_owner repo_name branch
          (.httpError code reason) =
        .error (.releaseError ("GitHub API error: " ++ toString code ++ " " ++ reason))) ∧
    (GitHubOperations.get_latest_commit_sha repo_owner repo_name branch
        (.urlError reason) =
      .error (.releaseError ("Network error accessing GitHub API: " ++ reason))) ∧
    (∀ kvs, pyFind kvs "commit" = none →
      GitHubOperations.get_latest_commit_sha repo_owner repo_name branch
          (.success (.map kvs)) =
        .error (.releaseError "Unexpected response format from GitHub API")) ∧
    (∀ kvs ckvs, pyFind kvs "commit" = some (.map ckvs) → pyFind ckvs "sha" = none →
      GitHubOperations.get_latest_commit_sha repo_owner repo_name branch
          (.success (.map kvs)) =
        .error (.releaseError "Unexpected response format from GitHub API")) ∧
    (∀ kvs ckvs sha, pyFind kvs "commit" = some (.map ckvs) →
      pyFind ckvs "sha" = some sha →
      GitHubOperations.get_latest_commit_sha repo_owner repo_name branch
          (.success (.map kvs)) = .ok sha) ∧
    (("Branch " ++ branch ++ " not found in " ++ repo_owner ++ "/" ++ repo_name) ≠
        "GitHub API rate limit exceeded. Try again later or set GITHUB_TOKEN environment variable." ∧
      ("Branch " ++ branch ++ " not found in " ++ repo_owner ++ "/" ++ repo_name) ≠
        ("GitHub API error: " ++ toString code ++ " " ++ reason) ∧
      ("Branch " ++ branch ++ " not found in " ++ repo_owner ++ "/" ++ repo_name) ≠
        ("Network error accessing GitHub API: " ++ reason) ∧
      ("Branch " ++ branch ++ " not found in " ++ repo_owner ++ "/" ++ repo_name) ≠
        "Unexpected response format from GitHub API" ∧
      "GitHub API rate limit exceeded. Try again later or set GITHUB_TOKEN environment variable." ≠
        ("GitHub API error: " ++ toString code ++ " " ++ reason) ∧
      "GitHub API rate limit exceeded. Try again later or set GITHUB_TOKEN environment variable." ≠
        ("Network error accessing GitHub API: " ++ reason) ∧
      "GitHub API rate limit exceeded. Try again later or set GITHUB_TOKEN environment variable." ≠
        "Unexpected response format from GitHub API" ∧
      ("GitHub API error: " ++ toString code ++ " " ++ reason) ≠
        ("Network error accessing GitHub API: " ++ reason) ∧
      ("GitHub API error: " ++ toString code ++ " " ++ reason) ≠
        "Unexpected response format from GitHub API" ∧
      ("Network error accessing GitHub API: " ++ reason) ≠
        "Unexpected response format from GitHub API") := by
  refine ⟨rfl, rfl, ?_, rfl, ?_, ?_, ?_, ?_⟩
  · intro h404 h403
    have e404 : (code == 404) = false := by simpa using h404
    have e403 : (code == 403) = false := by simpa using h403
    simp [GitHubOperations.get_latest_commit_sha, GitHubOperations.githubWrap, e404, e403]
  · intro kvs h
    simp [GitHubOperations.get_latest_commit_sha, GitHubOperations.githubWrap,
      pyGetItemStr, h]
  · intro kvs ckvs h1 h2
    simp [GitHubOperations.get_latest_commit_sha, GitHubOperations.githubWrap,
      pyGetItemStr, h1, h2]
  · intro kvs ckvs sha h1 h2
    simp [GitHubOperations.get_latest_commit_sha, GitHubOperations.githubWrap,
      pyGetItemStr, h1, h2]
  · exact ⟨str_ne_of_char _ _ 0 'B' 'G' rfl rfl (by decide),
      str_ne_of_char _ _ 0 'B' 'G' rfl rfl (by decide),
      str_ne_of_char _ _ 0 'B' 'N' rfl rfl (by decide),
      str_ne_of_char _ _ 0 'B' 'U' rfl rfl (by decide),
      str_ne_of_char _ _ 11 'r' 'e' rfl rfl (by decide),
      str_ne_of_char _ _ 0 'G' 'N' rfl rfl (by decide),
      str_ne_of_char _ _ 0 'G' 'U' rfl rfl (by decide),
      str_ne_of_char _ _ 0 'G' 'N' rfl rfl (by decide),
      str_ne_of_char _ _ 0 'G' 'U' rfl rfl (by decide),
      str_ne_of_char _ _ 0 'N' 'U' rfl rfl (by decide)⟩

/-- Witness for C7 at concrete inputs: a generic API error for status 500
and the success extraction of `commit.sha`. -/
theorem claim_C7_witness :
    GitHubOperations.get_latest_commit_sha "openshift" "instaslice-operator" "next"
        (.httpError 500 "Internal Server Error") =
      .error (.releaseError ("GitHub API error: " ++ toString 500 ++ " " ++
        "Internal Server Error")) ∧
    GitHubOperations.get_latest_commit_sha "openshift" "instaslice-operator" "next"
        (.success (.map [("name", .str "next"),
          ("commit", .map [("sha", .str "0123abcd")])])) =
      .ok (.str "0123abcd") :=
  ⟨(claim_C7_github_error_taxonomy "openshift" "instaslice-operator" "next"
      "Internal Server Error" 500).2.2.1 (by decide) (by decide),
   (claim_C7_github_error_taxonomy "openshift" "instaslice-operator" "next"
      "Internal Server Error" 500).2.2.2.2.2.2.1
      [("name", .str "next"), ("commit", .map [("sha", .str "0123abcd")])]
      [("sha", .str "0123abcd")] (.str "0123abcd") rfl rfl⟩

end DasRelease

namespace DasRelease

/-- Claim C2: on a template whose `Stable.Bundles[0].Image` already equals
the candidate image string, `update_catalog_template` is a no-op — the
stored file is unchanged, byte for byte, and the call succeeds — and the
would-change decision (`preview_catalog_update`'s `would_change`) is
`false`. -/
theorem claim_C2_idempotent_noop (fs : FS) (path img : String)
    (kvs skvs bkvs : List (String × Yaml)) (brest : List Yaml)
    (hfile : fsLookup fs path = some (.file (.parsed (.map kvs))))
    (hstable : pyFind kvs "Stable" = some (.map skvs))
    (hbundles : pyFind skvs "Bundles" = some (.list (.map bkvs :: brest)))
    (himg : pyFind bkvs "Image" = some (.str img)) :
    FBCCatalogManager.update_catalog_template fs path img = .ok fs ∧
    FBCCatalogManager.preview_catalog_update fs path img =
      .ok { template_path := path, current_image := .str img, new_image := img,
            would_change := false } := by
  constructor
  · have h := update_nav fs path img kvs skvs bkvs brest (.str img)
      hfile hstable hbundles himg
    rw [mapSet_self "Image" bkvs (.str img) himg] at h
    rw [mapSet_self "Bundles" skvs (.list (.map bkvs :: brest)) hbundles] at h
    rw [mapSet_self "Stable" kvs (.map skvs) hstable] at h
    rw [fsWrite_self fs path _ hfile] at h
    exact h
  · have h := preview_nav fs path img kvs skvs bkvs brest (.str img)
      hfile hstable hbundles himg
    simpa [pyEqStr] using h

/-- Witness for C2: a concrete already-current template is left untouched by
apply, and preview reports `would_change := false`. -/
theorem claim_C2_witness :
    FBCCatalogManager.update_catalog_template
        [("/fbc/v4.19/catalog-template.yaml", .file (.parsed (.map
          [("Schema", .str "olm.semver"),
           ("Stable", .map [("Bundles", .list
             [.map [("Image", .str "quay.io/x@sha256:aa")]])])])))]
        "/fbc/v4.19/catalog-template.yaml" "quay.io/x@sha256:aa" =
      .ok [("/fbc/v4.19/catalog-template.yaml", .file (.parsed (.map
          [("Schema", .str "olm.semver"),
           ("Stable", .map [("Bundles", .list
             [.map [("Image", .str "quay.io/x@sha256:aa")]])])])))] ∧
    FBCCatalogManager.preview_catalog_update
        [("/fbc/v4.19/catalog-template.yaml", .file (.parsed (.map
          [("Schema", .str "olm.semver"),
           ("Stable", .map [("Bundles", .list
             [.map [("Image", .str "quay.io/x@sha256:aa")]])])])))]
        "/fbc/v4.19/catalog-template.yaml" "quay.io/x@sha256:aa" =
      .ok { template_path := "/fbc/v4.19/catalog-template.yaml",
            current_image := .str "quay.io/x@sha256:aa",
            new_image := "quay.io/x@sha256:aa", would_change := false } :=
  claim_C2_idempotent_noop
    [("/fbc/v4.19/catalog-template.yaml", .file (.parsed (.map
      [("Schema", .str "olm.semver"),
       ("Stable", .map [("Bundles", .list
         [.map [("Image", .str "quay.io/x@sha256:aa")]])])])))]
    "/fbc/v4.19/catalog-template.yaml" "quay.io/x@sha256:aa"
    [("Schema", .str "olm.semver"),
     ("Stable", .map [("Bundles", .list
       [.map [("Image", .str "quay.io/x@sha256:aa")]])])]
    [("Bundles", .list [.map [("Image", .str "quay.io/x@sha256:aa")]])]
    [("Image", .str "quay.io/x@sha256:aa")] [] rfl rfl rfl rfl

/-- Claim C5: on a well-formed template whose stored image differs from the
candidate, `update_catalog_template` rewrites exactly the
`Stable.Bundles[0].Image` value — every other key and value, and the order
of all entries, is preserved verbatim in the written document — and
re-reading the written file yields `Stable.Bundles[0].Image` equal to the
candidate (`preview` then reports it as current with no further change). -/
theorem claim_C5_update_changes_one_field (fs : FS) (path img : String)
    (pre post spre spost bpre bpost : List (String × Yaml)) (brest : List Yaml)
    (oldImg : Yaml)
    (hfile : fsLookup fs path = some (.file (.parsed (.map (pre ++ ("Stable",
      .map (spre ++ ("Bundles", .list (.map (bpre ++ ("Image", oldImg) :: bpost)
        :: brest)) :: spost)) :: post)))))
    (hpre : ∀ e ∈ pre, e.1 ≠ "Stable")
    (hspre : ∀ e ∈ spre, e.1 ≠ "Bundles")
    (hbpre : ∀ e ∈ bpre, e.1 ≠ "Image")
    (_hdiff : oldImg ≠ .str img) :
    FBCCatalogManager.update_catalog_template fs path img =
      .ok (fsWrite fs path (.file (.parsed (.map (pre ++ ("Stable",
        .map (spre ++ ("Bundles", .list (.map (bpre ++ ("Image", .str img) :: bpost)
          :: brest)) :: spost)) :: post))))) ∧
    FBCCatalogManager.preview_catalog_update
        (fsWrite fs path (.file (.parsed (.map (pre ++ ("Stable",
          .map (spre ++ ("Bundles", .list (.map (bpre ++ ("Image", .str img) :: bpost)
            :: brest)) :: spost)) :: post)))))
        path img =
      .ok { template_path := path, current_image := .str img, new_image := img,
            would_change := false } := by
  constructor
  · have h := update_nav fs path img _ _ _ brest oldImg hfile
      (pyFind_decomp "Stable" _ post pre hpre)
      (pyFind_decomp "Bundles" _ spost spre hspre)
      (pyFind_decomp "Image" oldImg bpost bpre hbpre)
    rw [mapSet_decomp "Image" (Yaml.str img) oldImg bpost bpre hbpre] at h
    rw [mapSet_decomp "Bundles" _ _ spost spre hspre] at h
    rw [mapSet_decomp "Stable" _ _ post pre hpre] at h
    exact h
  · have h := preview_nav (fsWrite fs path (.file (.parsed (.map (pre ++ ("Stable",
        .map (spre ++ ("Bundles", .list (.map (bpre ++ ("Image", .str img) :: bpost)
          :: brest)) :: spost)) :: post))))) path img _ _ _ brest (.str img)
      (fsLookup_write fs path _)
      (pyFind_decomp "Stable" _ post pre hpre)
      (pyFind_decomp "Bundles" _ spost spre hspre)
      (pyFind_decomp "Image" (.str img) bpost bpre hbpre)
    simpa [pyEqStr] using h

/-- Witness for C5: applying to a concrete two-key template replaces only
the image value, preserving the unrelated `Schema` key and order, and
re-reading yields the candidate. -/
theorem claim_C5_witness :
    FBCCatalogManager.update_catalog_template
        [("/fbc/v4.19/catalog-template.yaml", .file (.parsed (.map
          [("Schema", .str "olm.semver"),
           ("Stable", .map [("Bundles", .list
             [.map [("Image", .str "quay.io/x@sha256:old")]])])])))]
        "/fbc/v4.19/catalog-template.yaml" "quay.io/x@sha256:new" =
      .ok [("/fbc/v4.19/catalog-template.yaml", .file (.parsed (.map
          [("Schema", .str "olm.semver"),
           ("Stable", .map [("Bundles", .list
             [.map [("Image", .str "quay.io/x@sha256:new")]])])])))] ∧
    FBCCatalogManager.preview_catalog_update
        [("/fbc/v4.19/catalog-template.yaml", .file (.parsed (.map
          [("Schema", .str "olm.semver"),
           ("Stable", .map [("Bundles", .list
             [.map [("Image", .str "quay.io/x@sha256:new")]])])])))]
        "/fbc/v4.19/catalog-template.yaml" "quay.io/x@sha256:new" =
      .ok { template_path := "/fbc/v4.19/catalog-template.yaml",
            current_image := .str "quay.io/x@sha256:new",
            new_image := "quay.io/x@sha256:new", would_change := false } :=
  claim_C5_update_changes_one_field
    [("/fbc/v4.19/catalog-template.yaml", .file (.parsed (.map
      [("Schema", .str "olm.semver"),
       ("Stable", .map [("Bundles", .list
         [.map [("Image", .str "quay.io/x@sha256:old")]])])])))]
    "/fbc/v4.19/catalog-template.yaml" "quay.io/x@sha256:new"
    [("Schema", .str "olm.semver")] [] [] [] [] [] []
    (.str "quay.io/x@sha256:old")
    rfl (by decide) (by decide) (by decide) (by simp)

end DasRelease

namespace DasRelease

theorem previewWrap_releaseError (fs : FS) (path img : String) (e : PyExc)
    (h : FBCCatalogManager.preview_catalog_update_body fs path img = .error e) :
    ∃ m, FBCCatalogManager.preview_catalog_update fs path img =
      .error (.releaseError m) := by
  cases e with
  | releaseError m =>
    exact ⟨m, by simp [FBCCatalogManager.preview_catalog_update, h,
      FBCCatalogManager.previewWrap]⟩
  | yamlError m =>
    exact ⟨"Failed to parse YAML template: " ++ m,
      by simp [FBCCatalogManager.preview_catalog_update, h,
        FBCCatalogManager.previewWrap]⟩
  | _ m =>
    exact ⟨"Failed to preview template: " ++ m,
      by simp [FBCCatalogManager.preview_catalog_update, h,
        FBCCatalogManager.previewWrap, PyExc.message]⟩

theorem updateWrap_releaseError (fs : FS) (path img : String) (e : PyExc)
    (h : FBCCatalogManager.update_catalog_template_body fs path img = .error e) :
    ∃ m, FBCCatalogManager.update_catalog_template fs path img =
      .error (.releaseError m) := by
  cases e with
  | releaseError m =>
    exact ⟨m, by simp [FBCCatalogManager.update_catalog_template, h,
      FBCCatalogManager.updateWrap]⟩
  | yamlError m =>
    exact ⟨"Failed to parse YAML template: " ++ m,
      by simp [FBCCatalogManager.update_catalog_template, h,
        FBCCatalogManager.updateWrap]⟩
  | _ m =>
    exact ⟨"Failed to update template: " ++ m,
      by simp [FBCCatalogManager.update_catalog_template, h,
        FBCCatalogManager.updateWrap, PyExc.message]⟩

/-- Claim C6: the shared template validation of preview and apply checks, in
strict order, file existence, the `Stable` key, the `Bundles` key, that
`Bundles` is a non-empty list, and the `Image` key of its first element;
a missing `Stable`, a missing `Bundles` and an empty `Bundles` each produce
their own distinct release error naming the missing section, identically in
both operations. -/
theorem claim_C6_validation_order (fs : FS) (path img : String) :
    (fsLookup fs path = none →
      FBCCatalogManager.preview_catalog_update fs path img =
        .error (.releaseError ("Template not found: " ++ path)) ∧
      FBCCatalogManager.update_catalog_template fs path img =
        .error (.releaseError ("Template not found: " ++ path))) ∧
    (∀ kvs, fsLookup fs path = some (.file (.parsed (.map kvs))) →
      (∀ e ∈ kvs, e.1 ≠ "Stable") →
      FBCCatalogManager.preview_catalog_update fs path img =
        .error (.releaseError "Template missing Stable section") ∧
      FBCCatalogManager.update_catalog_template fs path img =
        .error (.releaseError "Template missing Stable section")) ∧
    (∀ kvs skvs, fsLookup fs path = some (.file (.parsed (.map kvs))) →
      pyFind kvs "Stable" = some (.map skvs) →
      (∀ e ∈ skvs, e.1 ≠ "Bundles") →
      FBCCatalogManager.preview_catalog_update fs path img =
        .error (.releaseError "Template missing Stable.Bundles section") ∧
      FBCCatalogManager.update_catalog_template fs path img =
        .error (.releaseError "Template missing Stable.Bundles section")) ∧
    (∀ kvs skvs, fsLookup fs path = some (.file (.parsed (.map kvs))) →
      pyFind kvs "Stable" = some (.map skvs) →
      pyFind skvs "Bundles" = some (.list []) →
      FBCCatalogManager.preview_catalog_update fs path img =
        .error (.releaseError "Template has empty or invalid Bundles list") ∧
      FBCCatalogManager.update_catalog_template fs path img =
        .error (.releaseError "Template has empty or invalid Bundles list")) ∧
    (∀ kvs skvs bkvs brest, fsLookup fs path = some (.file (.parsed (.map kvs))) →
      pyFind kvs "Stable" = some (.map skvs) →
      pyFind skvs "Bundles" = some (.list (.map bkvs :: brest)) →
      (∀ e ∈ bkvs, e.1 ≠ "Image") →
      FBCCatalogManager.preview_catalog_update fs path img =
        .error (.releaseError "Template missing Image field in first bundle") ∧
      FBCCatalogManager.update_catalog_template fs path img =
        .error (.releaseError "Template missing Image field in first bundle")) ∧
    ("Template missing Stable section" ≠ "Template missing Stable.Bundles section" ∧
      "Template missing Stable section" ≠ "Template has empty or invalid Bundles list" ∧
      "Template missing Stable.Bundles section" ≠
        "Template has empty or invalid Bundles list" ∧
      strContains "Template missing Stable section" "Stable" = true ∧
      strContains "Template missing Stable.Bundles section" "Stable.Bundles" = true ∧
      strContains "Template has empty or invalid Bundles list" "Bundles" = true) := by
  refine ⟨?_, ?_, ?_, ?_, ?_, ?_⟩
  · intro hfile
    constructor
    · simp [FBCCatalogManager.preview_catalog_update,
        FBCCatalogManager.preview_catalog_update_body, hfile,
        FBCCatalogManager.previewWrap]
    · simp [FBCCatalogManager.update_catalog_template,
        FBCCatalogManager.update_catalog_template_body, hfile,
        FBCCatalogManager.updateWrap]
  · intro kvs hfile hnone
    have ha := anyKey_absent "Stable" kvs hnone
    constructor
    · simp [FBCCatalogManager.preview_catalog_update,
        FBCCatalogManager.preview_catalog_update_body, hfile, pyContains, ha,
        FBCCatalogManager.previewWrap]
    · simp [FBCCatalogManager.update_catalog_template,
        FBCCatalogManager.update_catalog_template_body, hfile, pyContains, ha,
        FBCCatalogManager.updateWrap]
  · intro kvs skvs hfile hstable hnb
    have ha := any_of_pyFind _ _ _ hstable
    have hb := anyKey_absent "Bundles" skvs hnb
    constructor
    · simp [FBCCatalogManager.preview_catalog_update,
        FBCCatalogManager.preview_catalog_update_body, hfile, pyContains,
        pyGetItemStr, ha, hstable, hb, FBCCatalogManager.previewWrap]
    · simp [FBCCatalogManager.update_catalog_template,
        FBCCatalogManager.update_catalog_template_body, hfile, pyContains,
        pyGetItemStr, ha, hstable, hb, FBCCatalogManager.updateWrap]
  · intro kvs skvs hfile hstable hbundles
    have ha := any_of_pyFind _ _ _ hstable
    have hb := any_of_pyFind _ _ _ hbundles
    constructor
    · simp [FBCCatalogManager.preview_catalog_update,
        FBCCatalogManager.preview_catalog_update_body, hfile, pyContains,
        pyGetItemStr, ha, hstable, hb, hbundles, FBCCatalogManager.previewWrap]
    · simp [FBCCatalogManager.update_catalog_template,
        FBCCatalogManager.update_catalog_template_body, hfile, pyContains,
        pyGetItemStr, ha, hstable, hb, hbundles, FBCCatalogManager.updateWrap]
  · intro kvs skvs bkvs brest hfile hstable hbundles hni
    have ha := any_of_pyFind _ _ _ hstable
    have hb := any_of_pyFind _ _ _ hbundles
    have hc := anyKey_absent "Image" bkvs hni
    constructor
    · simp [FBCCatalogManager.preview_catalog_update,
        FBCCatalogManager.preview_catalog_update_body, hfile, pyContains,
        pyGetItemStr, ha, hstable, hb, hbundles, hc, FBCCatalogManager.previewWrap]
    · simp [FBCCatalogManager.update_catalog_template,
        FBCCatalogManager.update_catalog_template_body, hfile, pyContains,
        pyGetItemStr, ha, hstable, hb, hbundles, hc, FBCCatalogManager.updateWrap]
  · exact ⟨by decide, by decide, by decide, by decide, by decide, by decide⟩

/-- Witness for C6 at concrete templates: one missing `Stable`, one missing
`Bundles`, one with empty `Bundles`. -/
theorem claim_C6_witness :
    (FBCCatalogManager.preview_catalog_update
        [("t.yaml", .file (.parsed (.map [("Other", .null)])))] "t.yaml" "img" =
      .error (.releaseError "Template missing Stable section")) ∧
    (FBCCatalogManager.update_catalog_template
        [("t.yaml", .file (.parsed (.map [("Stable", .map [("Schema", .null)])])))]
        "t.yaml" "img" =
      .error (.releaseError "Template missing Stable.Bundles section")) ∧
    (FBCCatalogManager.preview_catalog_update
        [("t.yaml", .file (.parsed (.map [("Stable", .map [("Bundles", .list [])])])))]
        "t.yaml" "img" =
      .error (.releaseError "Template has empty or invalid Bundles list")) :=
  ⟨((claim_C6_validation_order
      [("t.yaml", .file (.parsed (.map [("Other", .null)])))] "t.yaml" "img").2.1
      [("Other", .null)] rfl (by decide)).1,
   ((claim_C6_validation_order
      [("t.yaml", .file (.parsed (.map [("Stable", .map [("Schema", .null)])])))]
      "t.yaml" "img").2.2.1
      [("Stable", .map [("Schema", .null)])] [("Schema", .null)] rfl rfl (by decide)).2,
   ((claim_C6_validation_order
      [("t.yaml", .file (.parsed (.map [("Stable", .map [("Bundles", .list [])])])))]
      "t.yaml" "img").2.2.2.1
      [("Stable", .map [("Bundles", .list [])])] [("Bundles", .list [])]
      rfl rfl rfl).1⟩

/-- Claim C10: a template file that parses to a non-mapping top level (null
from an empty document, a list, a scalar) makes both preview and apply fail
with a `ReleaseError` — the `TypeError` raised inside the navigation is
caught and wrapped, never escaping the public interface. -/
theorem claim_C10_nonmapping_top_level (fs : FS) (path img : String) (doc : Yaml)
    (hfile : fsLookup fs path = some (.file (.parsed doc)))
    (hnm : ∀ kvs, doc ≠ .map kvs) :
    (∃ m, FBCCatalogManager.preview_catalog_update fs path img =
      .error (.releaseError m)) ∧
    (∃ m, FBCCatalogManager.update_catalog_template fs path img =
      .error (.releaseError m)) := by
  cases doc with
  | map kvs => exact absurd rfl (hnm kvs)
  | null =>
    refine ⟨previewWrap_releaseError fs path img
        (.typeError "argument of type NoneType is not iterable") ?_,
      updateWrap_releaseError fs path img
        (.typeError "argument of type NoneType is not iterable") ?_⟩ <;>
      simp [FBCCatalogManager.preview_catalog_update_body,
        FBCCatalogManager.update_catalog_template_body, hfile, pyContains]
  | bool b =>
    refine ⟨previewWrap_releaseError fs path img
        (.typeError "argument of type bool is not iterable") ?_,
      updateWrap_releaseError fs path img
        (.typeError "argument of type bool is not iterable") ?_⟩ <;>
      simp [FBCCatalogManager.preview_catalog_update_body,
        FBCCatalogManager.update_catalog_template_body, hfile, pyContains]
  | int n =>
    refine ⟨previewWrap_releaseError fs path img
        (.typeError "argument of type int is not iterable") ?_,
      updateWrap_releaseError fs path img
        (.typeError "argument of type int is not iterable") ?_⟩ <;>
      simp [FBCCatalogManager.preview_catalog_update_body,
        FBCCatalogManager.update_catalog_template_body, hfile, pyContains]
  | str s =>
    cases h : strContains s "Stable" with
    | false =>
      refine ⟨previewWrap_releaseError fs path img
          (.releaseError "Template missing Stable section") ?_,
        updateWrap_releaseError fs path img
          (.releaseError "Template missing Stable section") ?_⟩ <;>
        simp [FBCCatalogManager.preview_catalog_update_body,
          FBCCatalogManager.update_catalog_template_body, hfile, pyContains, h]
    | true =>
      refine ⟨previewWrap_releaseError fs path img
          (.typeError "string indices must be integers") ?_,
        updateWrap_releaseError fs path img
          (.typeError "string indices must be integers") ?_⟩ <;>
        simp [FBCCatalogManager.preview_catalog_update_body,
          FBCCatalogManager.update_catalog_template_body, hfile, pyContains,
          pyGetItemStr, h]
  | list xs =>
    cases h : xs.any (fun v => Yaml.beq v (Yaml.str "Stable")) with
    | false =>
      refine ⟨previewWrap_releaseError fs path img
          (.releaseError "Template missing Stable section") ?_,
        updateWrap_releaseError fs path img
          (.releaseError "Template missing Stable section") ?_⟩ <;>
        simp [FBCCatalogManager.preview_catalog_update_body,
          FBCCatalogManager.update_catalog_template_body, hfile, pyContains, h]
    | true =>
      refine ⟨previewWrap_releaseError fs path img
          (.typeError "list indices must be integers or slices, not str") ?_,
        updateWrap_releaseError fs path img
          (.typeError "list indices must be integers or slices, not str") ?_⟩ <;>
        simp [FBCCatalogManager.preview_catalog_update_body,
          FBCCatalogManager.update_catalog_template_body, hfile, pyContains,
          pyGetItemStr, h]

/-- Witness for C10: an empty YAML document (top level `None`). -/
theorem claim_C10_witness :
    (∃ m, FBCCatalogManager.preview_catalog_update
      [("t.yaml", .file (.parsed .null))] "t.yaml" "img" =
        .error (.releaseError m)) ∧
    (∃ m, FBCCatalogManager.update_catalog_template
      [("t.yaml", .file (.parsed .null))] "t.yaml" "img" =
        .error (.releaseError m)) :=
  claim_C10_nonmapping_top_level [("t.yaml", .file (.parsed .null))] "t.yaml" "img"
    .null rfl (fun _ h => nomatch h)

end DasRelease

namespace DasRelease

/-- Preview and apply share the template navigation verbatim: on every input
either both bodies raise an exception, or the template decomposes into the
valid `Stable.Bundles[0].Image` shape. -/
theorem bodies_same_shape (fs : FS) (path img : String) :
    (exceptIsError (FBCCatalogManager.preview_catalog_update_body fs path img) = true ∧
     exceptIsError (FBCCatalogManager.update_catalog_template_body fs path img) = true) ∨
    (∃ kvs skvs bkvs brest oldImg,
      fsLookup fs path = some (.file (.parsed (.map kvs))) ∧
      pyFind kvs "Stable" = some (.map skvs) ∧
      pyFind skvs "Bundles" = some (.list (.map bkvs :: brest)) ∧
      pyFind bkvs "Image" = some oldImg) := by
  cases hfile : fsLookup fs path with
  | none =>
    left
    constructor <;> simp [FBCCatalogManager.preview_catalog_update_body,
      FBCCatalogManager.update_catalog_template_body, hfile, exceptIsError]
  | some node =>
    cases node with
    | dir =>
      left
      constructor <;> simp [FBCCatalogManager.preview_catalog_update_body,
        FBCCatalogManager.update_catalog_template_body, hfile, exceptIsError]
    | file fd =>
      cases fd with
      | text c =>
        left
        constructor <;> simp [FBCCatalogManager.preview_catalog_update_body,
          FBCCatalogManager.update_catalog_template_body, hfile, exceptIsError]
      | unparsable m =>
        left
        constructor <;> simp [FBCCatalogManager.preview_catalog_update_body,
          FBCCatalogManager.update_catalog_template_body, hfile, exceptIsError]
      | parsed doc =>
        cases doc with
        | null =>
          left
          constructor <;> simp [FBCCatalogManager.preview_catalog_update_body,
            FBCCatalogManager.update_catalog_template_body, hfile, pyContains,
            exceptIsError]
        | bool b =>
          left
          constructor <;> simp [FBCCatalogManager.preview_catalog_update_body,
            FBCCatalogManager.update_catalog_template_body, hfile, pyContains,
            exceptIsError]
        | int n =>
          left
          constructor <;> simp [FBCCatalogManager.preview_catalog_update_body,
            FBCCatalogManager.update_catalog_template_body, hfile, pyContains,
            exceptIsError]
        | str s =>
          cases h1 : strContains s "Stable" <;>
            (left
             constructor <;> simp [FBCCatalogManager.preview_catalog_update_body,
               FBCCatalogManager.update_catalog_template_body, hfile, pyContains,
               pyGetItemStr, h1, exceptIsError])
        | list xs =>
          cases h1 : xs.any (fun v => Yaml.beq v (Yaml.str "Stable")) <;>
            (left
             constructor <;> simp [FBCCatalogManager.preview_catalog_update_body,
               FBCCatalogManager.update_catalog_template_body, hfile, pyContains,
               pyGetItemStr, h1, exceptIsError])
        | map kvs =>
          cases h1 : kvs.any (fun e => e.1 == "Stable") with
          | false =>
            left
            constructor <;> simp [FBCCatalogManager.preview_catalog_update_body,
              FBCCatalogManager.update_catalog_template_body, hfile, pyContains, h1,
              exceptIsError]
          | true =>
            cases h2 : pyFind kvs "Stable" with
            | none =>
              left
              constructor <;> simp [FBCCatalogManager.preview_catalog_update_body,
                FBCCatalogManager.update_catalog_template_body, hfile, pyContains,
                pyGetItemStr, h1, h2, exceptIsError]
            | some stable =>
              cases stable with
              | null =>
                left
                constructor <;> simp [FBCCatalogManager.preview_catalog_update_body,
                  FBCCatalogManager.update_catalog_template_body, hfile, pyContains,
                  pyGetItemStr, h1, h2, exceptIsError]
              | bool b =>
                left
                constructor <;> simp [FBCCatalogManager.preview_catalog_update_body,
                  FBCCatalogManager.update_catalog_template_body, hfile, pyContains,
                  pyGetItemStr, h1, h2, exceptIsError]
              | int n =>
                left
                constructor <;> simp [FBCCatalogManager.preview_catalog_update_body,
                  FBCCatalogManager.update_catalog_template_body, hfile, pyContains,
                  pyGetItemStr, h1, h2, exceptIsError]
              | str s2 =>
                cases h3 : strContains s2 "Bundles" <;>
                  (left
                   constructor <;> simp [FBCCatalogManager.preview_catalog_update_body,
                     FBCCatalogManager.update_catalog_template_body, hfile, pyContains,
                     pyGetItemStr, h1, h2, h3, exceptIsError])
              | list ys =>
                cases h3 : ys.any (fun v => Yaml.beq v (Yaml.str "Bundles")) <;>
                  (left
                   constructor <;> simp [FBCCatalogManager.preview_catalog_update_body,
                     FBCCatalogManager.update_catalog_template_body, hfile, pyContains,
                     pyGetItemStr, h1, h2, h3, exceptIsError])
              | map skvs =>
                cases h3 : skvs.any (fun e => e.1 == "Bundles") with
                | false =>
                  left
                  constructor <;> simp [FBCCatalogManager.preview_catalog_update_body,
                    FBCCatalogManager.update_catalog_template_body, hfile, pyContains,
                    pyGetItemStr, h1, h2, h3, exceptIsError]
                | true =>
                  cases h4 : pyFind skvs "Bundles" with
                  | none =>
                    left
                    constructor <;> simp [FBCCatalogManager.preview_catalog_update_body,
                      FBCCatalogManager.update_catalog_template_body, hfile, pyContains,
                      pyGetItemStr, h1, h2, h3, h4, exceptIsError]
                  | some bundles =>
                    cases bundles with
                    | null =>
                      left
                      constructor <;> simp [FBCCatalogManager.preview_catalog_update_body,
                        FBCCatalogManager.update_catalog_template_body, hfile, pyContains,
                        pyGetItemStr, h1, h2, h3, h4, exceptIsError]
                    | bool b =>
                      left
                      constructor <;> simp [FBCCatalogManager.preview_catalog_update_body,
                        FBCCatalogManager.update_catalog_template_body, hfile, pyContains,
                        pyGetItemStr, h1, h2, h3, h4, exceptIsError]
                    | int n =>
                      left
                      constructor <;> simp [FBCCatalogManager.preview_catalog_update_body,
                        FBCCatalogManager.update_catalog_template_body, hfile, pyContains,
                        pyGetItemStr, h1, h2, h3, h4, exceptIsError]
                    | str s3 =>
                      left
                      constructor <;> simp [FBCCatalogManager.preview_catalog_update_body,
                        FBCCatalogManager.update_catalog_template_body, hfile, pyContains,
                        pyGetItemStr, h1, h2, h3, h4, exceptIsError]
                    | map mkvs =>
                      left
                      constructor <;> simp [FBCCatalogManager.preview_catalog_update_body,
                        FBCCatalogManager.update_catalog_template_body, hfile, pyContains,
                        pyGetItemStr, h1, h2, h3, h4, exceptIsError]
                    | list bl =>
                      cases bl with
                      | nil =>
                        left
                        constructor <;> simp [FBCCatalogManager.preview_catalog_update_body,
                          FBCCatalogManager.update_catalog_template_body, hfile, pyContains,
                          pyGetItemStr, h1, h2, h3, h4, exceptIsError]
                      | cons b0 brest =>
                        cases b0 with
                        | null =>
                          left
                          constructor <;> simp [FBCCatalogManager.preview_catalog_update_body,
                            FBCCatalogManager.update_catalog_template_body, hfile, pyContains,
                            pyGetItemStr, h1, h2, h3, h4, exceptIsError]
                        | bool b =>
                          left
                          constructor <;> simp [FBCCatalogManager.preview_catalog_update_body,
                            FBCCatalogManager.update_catalog_template_body, hfile, pyContains,
                            pyGetItemStr, h1, h2, h3, h4, exceptIsError]
                        | int n =>
                          left
                          constructor <;> simp [FBCCatalogManager.preview_catalog_update_body,
                            FBCCatalogManager.update_catalog_template_body, hfile, pyContains,
                            pyGetItemStr, h1, h2, h3, h4, exceptIsError]
                        | str s3 =>
                          cases h5 : strContains s3 "Image" <;>
                            (left
                             constructor <;> simp [FBCCatalogManager.preview_catalog_update_body,
                               FBCCatalogManager.update_catalog_template_body, hfile, pyContains,
                               pyGetItemStr, h1, h2, h3, h4, h5, exceptIsError])
                        | list zs =>
                          cases h5 : zs.any (fun v => Yaml.beq v (Yaml.str "Image")) <;>
                            (left
                             constructor <;> simp [FBCCatalogManager.preview_catalog_update_body,
                               FBCCatalogManager.update_catalog_template_body, hfile, pyContains,
                               pyGetItemStr, h1, h2, h3, h4, h5, exceptIsError])
                        | map bkvs =>
                          cases h5 : bkvs.any (fun e => e.1 == "Image") with
                          | false =>
                            left
                            constructor <;> simp [FBCCatalogManager.preview_catalog_update_body,
                              FBCCatalogManager.update_catalog_template_body, hfile, pyContains,
                              pyGetItemStr, h1, h2, h3, h4, h5, exceptIsError]
                          | true =>
                            cases h6 : pyFind bkvs "Image" with
                            | none =>
                              left
                              constructor <;> simp [FBCCatalogManager.preview_catalog_update_body,
                                FBCCatalogManager.update_catalog_template_body, hfile, pyContains,
                                pyGetItemStr, h1, h2, h3, h4, h5, h6, exceptIsError]
                            | some cur =>
                              right
                              exact ⟨kvs, skvs, bkvs, brest, cur, rfl, h2, h4, h6⟩

end DasRelease

namespace DasRelease

theorem preview_err_of_body (fs : FS) (path img : String)
    (h : exceptIsError (FBCCatalogManager.preview_catalog_update_body fs path img) = true) :
    ∃ e, FBCCatalogManager.preview_catalog_update fs path img = .error e := by
  cases hb : FBCCatalogManager.preview_catalog_update_body fs path img with
  | ok a => rw [hb] at h; simp [exceptIsError] at h
  | error e =>
    obtain ⟨m, hm⟩ := previewWrap_releaseError fs path img e hb
    exact ⟨.releaseError m, hm⟩

theorem update_err_of_body (fs : FS) (path img : String)
    (h : exceptIsError (FBCCatalogManager.update_catalog_template_body fs path img) = true) :
    ∃ e, FBCCatalogManager.update_catalog_template fs path img = .error e := by
  cases hb : FBCCatalogManager.update_catalog_template_body fs path img with
  | ok a => rw [hb] at h; simp [exceptIsError] at h
  | error e =>
    obtain ⟨m, hm⟩ := updateWrap_releaseError fs path img e hb
    exact ⟨.releaseError m, hm⟩

theorem preview_ok_of_wrap (fs : FS) (path img : String) (info : ChangeInfo)
    (h : FBCCatalogManager.preview_catalog_update fs path img = .ok info) :
    FBCCatalogManager.preview_catalog_update_body fs path img = .ok info := by
  cases hb : FBCCatalogManager.preview_catalog_update_body fs path img with
  | ok a =>
    have ha : FBCCatalogManager.preview_catalog_update fs path img = .ok a := by
      simp [FBCCatalogManager.preview_catalog_update, hb, FBCCatalogManager.previewWrap]
    rw [ha] at h
    exact congrArg Except.ok (Except.ok.inj h)
  | error e =>
    obtain ⟨m, hm⟩ := previewWrap_releaseError fs path img e hb
    rw [hm] at h
    cases h

theorem update_ok_of_wrap (fs : FS) (path img : String) (fs' : FS)
    (h : FBCCatalogManager.update_catalog_template fs path img = .ok fs') :
    FBCCatalogManager.update_catalog_template_body fs path img = .ok fs' := by
  cases hb : FBCCatalogManager.update_catalog_template_body fs path img with
  | ok a =>
    have ha : FBCCatalogManager.update_catalog_template fs path img = .ok a := by
      simp [FBCCatalogManager.update_catalog_template, hb, FBCCatalogManager.updateWrap]
    rw [ha] at h
    exact congrArg Except.ok (Except.ok.inj h)
  | error e =>
    obtain ⟨m, hm⟩ := updateWrap_releaseError fs path img e hb
    rw [hm] at h
    cases h

/-- Claim C4: preview and apply agree everywhere — they fail (with a release
error) on exactly the same inputs, and when both succeed, preview's
`would_change` flag is `true` exactly when apply actually changes the stored
template file. -/
theorem claim_C4_preview_apply_equivalence (fs : FS) (path img : String) :
    ((∃ e, FBCCatalogManager.preview_catalog_update fs path img = .error e) ↔
      (∃ e, FBCCatalogManager.update_catalog_template fs path img = .error e)) ∧
    (∀ info fs', FBCCatalogManager.preview_catalog_update fs path img = .ok info →
      FBCCatalogManager.update_catalog_template fs path img = .ok fs' →
      (info.would_change = true ↔ fs' ≠ fs)) := by
  rcases bodies_same_shape fs path img with ⟨hp, hu⟩ |
    ⟨kvs, skvs, bkvs, brest, oldImg, hfile, hst, hb, hi⟩
  · constructor
    · exact ⟨fun _ => update_err_of_body fs path img hu,
        fun _ => preview_err_of_body fs path img hp⟩
    · intro info fs' hok _
      have hbody := preview_ok_of_wrap fs path img info hok
      rw [hbody] at hp
      simp [exceptIsError] at hp
  · have hpn := preview_nav fs path img kvs skvs bkvs brest oldImg hfile hst hb hi
    have hun := update_nav fs path img kvs skvs bkvs brest oldImg hfile hst hb hi
    constructor
    · constructor
      · rintro ⟨e, he⟩
        rw [hpn] at he
        cases he
      · rintro ⟨e, he⟩
        rw [hun] at he
        cases he
    · intro info fs' hok huok
      rw [hpn] at hok
      rw [hun] at huok
      have hinfo := Except.ok.inj hok
      have hfs' := Except.ok.inj huok
      subst hinfo
      subst hfs'
      have key : pyEqStr oldImg img = true ↔
          fsWrite fs path (.file (.parsed (.map (mapSet "Stable"
            (.map (mapSet "Bundles"
              (.list (.map (mapSet "Image" (.str img) bkvs) :: brest)) skvs)) kvs)))) =
            fs := by
        constructor
        · intro heq
          cases oldImg with
          | str t =>
            have ht : t = img := by simpa [pyEqStr] using heq
            subst ht
            rw [mapSet_self "Image" bkvs (.str t) hi]
            rw [mapSet_self "Bundles" skvs (.list (.map bkvs :: brest)) hb]
            rw [mapSet_self "Stable" kvs (.map skvs) hst]
            exact fsWrite_self fs path _ hfile
          | null => simp [pyEqStr] at heq
          | bool b => simp [pyEqStr] at heq
          | int n => simp [pyEqStr] at heq
          | list xs => simp [pyEqStr] at heq
          | map mkvs => simp [pyEqStr] at heq
        · intro hw
          have hlw := fsLookup_write fs path (.file (.parsed (.map (mapSet "Stable"
            (.map (mapSet "Bundles"
              (.list (.map (mapSet "Image" (.str img) bkvs) :: brest)) skvs)) kvs))))
          rw [hw, hfile] at hlw
          have hmap : mapSet "Stable" (.map (mapSet "Bundles"
              (.list (.map (mapSet "Image" (.str img) bkvs) :: brest)) skvs)) kvs =
              kvs := by
            have := Option.some.inj hlw
            simpa using this.symm
          have hs' := mapSet_fix "Stable" kvs _ _ hst hmap
          have hmap2 : mapSet "Bundles"
              (.list (.map (mapSet "Image" (.str img) bkvs) :: brest)) skvs = skvs := by
            simpa using hs'
          have hb' := mapSet_fix "Bundles" skvs _ _ hb hmap2
          have hmap3 : mapSet "Image" (.str img) bkvs = bkvs := by
            simpa using hb'
          have hi' := mapSet_fix "Image" bkvs _ _ hi hmap3
          rw [hi'.symm]
          simp [pyEqStr]
      constructor
      · intro hwc heq
        have := key.mpr heq
        rw [this] at hwc
        simp at hwc
      · intro hne
        cases hx : pyEqStr oldImg img with
        | true => exact absurd (key.mp hx) hne
        | false => simp [hx]

/-- Witness for C4: on a concrete valid template with a differing candidate,
both operations succeed (discharged by `rfl`), preview reports
`would_change := true`, and by the equivalence the written file indeed
differs from the original. -/
theorem claim_C4_witness :
    ([("t.yaml", Node.file (FileData.parsed (Yaml.map [("Stable", Yaml.map [("Bundles",
      Yaml.list [Yaml.map [("Image", Yaml.str "new")]])])])))] : FS) ≠
      [("t.yaml", Node.file (FileData.parsed (Yaml.map [("Stable", Yaml.map [("Bundles",
        Yaml.list [Yaml.map [("Image", Yaml.str "old")]])])])))] :=
  ((claim_C4_preview_apply_equivalence
    [("t.yaml", .file (.parsed (.map [("Stable", .map [("Bundles", .list
      [.map [("Image", .str "old")]])])])))] "t.yaml" "new").2
    { template_path := "t.yaml", current_image := .str "old", new_image := "new",
      would_change := true }
    [("t.yaml", .file (.parsed (.map [("Stable", .map [("Bundles", .list
      [.map [("Image", .str "new")]])])])))] rfl rfl).mp rfl

end DasRelease

namespace DasRelease

theorem get_latest_bundle_sha_world (cfg : ReleaseConfig) (w : World) :
    (ReleaseManager.get_latest_bundle_sha cfg w).2 = w := by
  unfold ReleaseManager.get_latest_bundle_sha
  cases GitHubOperations.get_latest_commit_sha cfg.operator_repo_owner
      cfg.operator_repo_name cfg.operator_branch w.githubResult with
  | error e => rfl
  | ok sha =>
    cases ContainerImageOperations.get_image_digest w.skopeoResult with
    | error e => rfl
    | ok d => rfl

theorem check_fbc_repo_clean_world (cfg : ReleaseConfig) (w : World) :
    (ReleaseManager.check_fbc_repo_clean cfg w).2 = w := by
  unfold ReleaseManager.check_fbc_repo_clean
  cases GitOperations.check_repo_clean w.statusResult with
  | error e => rfl
  | ok b => cases b <;> rfl

theorem fetch_run_fs (w : World) : (GitOperations.fetch_latest_run w).2.fs = w.fs := by
  unfold GitOperations.fetch_latest_run
  cases GitOperations.fetch_latest w.fetchResult with
  | error e => rfl
  | ok u => rfl

theorem update_fbc_dry_fs (cfg : ReleaseConfig) (sha dig : String) (w : World) :
    (ReleaseManager.update_fbc_catalog cfg sha dig true w).2.fs = w.fs := by
  unfold ReleaseManager.update_fbc_catalog
  rcases hf : GitOperations.fetch_latest_run w with ⟨r, w1⟩
  have hw1 : w1.fs = w.fs := by
    have := fetch_run_fs w
    rw [hf] at this
    exact this
  cases r with
  | error e => exact hw1
  | ok u =>
    dsimp only
    cases FBCCatalogManager.preview_catalog_update w1.fs
        (cfg.fbc_repo_path ++ "/" ++ cfg.ocp_version ++ "/catalog-template.yaml")
        (cfg.quay_registry ++ "/" ++ cfg.tenant ++ "/" ++
          cfg.bundle_component ++ "@" ++ dig) with
    | error e => exact hw1
    | ok info => exact hw1

theorem validate_present_world (cfg : ReleaseConfig) (w : World)
    (h : pathExists w.fs cfg.fbc_repo_path = true) :
    (ReleaseManager.validate_and_setup_repositories cfg w).2 = w := by
  unfold ReleaseManager.validate_and_setup_repositories
  rw [h]
  by_cases hg : pathExists w.fs (cfg.fbc_repo_path ++ "/.git") = false
  · rw [if_pos hg]
    rfl
  · rw [if_neg hg]
    rfl

theorem bindStep_fs {α β : Type} (w0 : World) (r : Except PyExc α × World)
    (f : α → World → Except PyExc β × World)
    (hr : r.2.fs = w0.fs)
    (hf : ∀ a w1, w1.fs = w0.fs → (f a w1).2.fs = w0.fs) :
    (ReleaseManager.bindStep r f).2.fs = w0.fs := by
  rcases r with ⟨x, wr⟩
  cases x with
  | error e => exact hr
  | ok a => exact hf a wr hr

theorem run_release_body_dry_fs (cfg : ReleaseConfig) (w : World)
    (h : pathExists w.fs cfg.fbc_repo_path = true) :
    (ReleaseManager.run_release_body cfg true w).2.fs = w.fs := by
  unfold ReleaseManager.run_release_body
  apply bindStep_fs
  · rw [validate_present_world cfg w h]
  · intro a w1 hw1
    apply bindStep_fs
    · exact hw1
    · intro b w2 hw2
      apply bindStep_fs
      · rw [get_latest_bundle_sha_world cfg w2]
        exact hw2
      · intro shas w3 hw3
        apply bindStep_fs
        · rw [update_fbc_dry_fs cfg shas.1 shas.2 w3]
          exact hw3
        · intro c w4 hw4
          exact hw4

/-- Claim C1 as amended: in dry-run mode the workflow itself writes no file —
the template edit runs in preview and the render/commit steps are skipped —
but the repository-setup and fetch steps still run, so a dry run clones the
repository when its path is absent and refreshes version-control metadata.
With the repository already present, a dry-run execution leaves every file
on disk unchanged, and the dry-run catalog step (preview) leaves the
filesystem untouched for every input and every outcome. -/
theorem claim_C1_dry_run_filesystem (cfg : ReleaseConfig) (w : World) :
    (pathExists w.fs cfg.fbc_repo_path = true →
      (ReleaseManager.run_release cfg true w).2.fs = w.fs) ∧
    (∀ sha dig, (ReleaseManager.update_fbc_catalog cfg sha dig true w).2.fs = w.fs) := by
  constructor
  · intro h
    unfold ReleaseManager.run_release
    rcases hb : ReleaseManager.run_release_body cfg true w with ⟨r, w'⟩
    have hw' : w'.fs = w.fs := by
      have := run_release_body_dry_fs cfg w h
      rw [hb] at this
      exact this
    cases r with
    | error e => exact hw'
    | ok u => exact hw'
  · intro sha dig
    exact update_fbc_dry_fs cfg sha dig w

/-- Claim C1, counterexample: a dry run with the repository path absent
performs the clone step, creating the repository directory and its `.git`
on disk — the dry run does touch the filesystem. -/
theorem claim_C1_counterexample :
    absentRepoWorld.fs = [] ∧
    pathExists absentRepoWorld.fs cloneConfig.fbc_repo_path = false ∧
    (ReleaseManager.run_release cloneConfig true absentRepoWorld).2.fs =
      [("/fbc", .dir), ("/fbc/.git", .dir)] ∧
    (ReleaseManager.run_release cloneConfig true absentRepoWorld).2.fs ≠
      absentRepoWorld.fs := by
  refine ⟨rfl, rfl, rfl, ?_⟩
  have h : (ReleaseManager.run_release cloneConfig true absentRepoWorld).2.fs =
      [("/fbc", .dir), ("/fbc/.git", .dir)] := rfl
  rw [h]
  simp [absentRepoWorld]

/-- Witness for C1's amended theorem: with the repository present, a full
dry run (all external calls succeeding) leaves the filesystem exactly as it
was. -/
theorem claim_C1_witness :
    pathExists presentRepoWorld.fs cloneConfig.fbc_repo_path = true ∧
    (ReleaseManager.run_release cloneConfig true presentRepoWorld).2.fs =
      presentRepoWorld.fs :=
  ⟨rfl, (claim_C1_dry_run_filesystem cloneConfig presentRepoWorld).1 rfl⟩

end DasRelease
